import Mathlib

/-!
# ChromeOS EC Type-C driver: port synchronisation

A shallow embedding of `drivers/platform/chrome/cros_ec_typec.c`.

* Pointers are the integer value of the pointer (`NULL` is `0`, an error
  pointer lies in `[-MAX_ERRNO, -1]`).
* Every call that leaves the driver (a transfer to the EC, a call into the
  Type-C class) is appended to a log of `typec_call`s; what the outside world
  answers is read from an environment record, so the driver functions are
  total functions of the driver state and the environment.
* `struct typec_data` keeps its `ports[]` array as a function of the index.
* Integer fields are unbounded `Nat` or `Int`; a conversion that can truncate
  (`uint8_t` request fields, the `uint8_t` version mask, the 32-bit product
  VDO) is written with an explicit `%`.
* A response buffer on the stack starts with arbitrary contents, which the
  environment supplies; the driver never reads them.
* The messages to the kernel log (`dev_dbg`, `dev_err`, `print_hex_dump`) are
  left out.
-/

namespace CrosEcTypec

/-! ## Constants and types of headers the driver includes -/

/-- Modelled from the spec: the constants of `cros_ec_commands.h` that the
driver uses are not among the sources (the spec only says that CONNECTED,
PD_CAPABLE and DATA, POWER, VCONN are independent bits, and that the port count
has a fixed platform maximum), so they are parameters of every function. -/
structure ec_consts where
  PD_CTRL_RESP_ENABLED_CONNECTED : Nat
  PD_CTRL_RESP_ENABLED_PD_CAPABLE : Nat
  PD_CTRL_RESP_ROLE_POWER : Nat
  PD_CTRL_RESP_ROLE_DATA : Nat
  PD_CTRL_RESP_ROLE_VCONN : Nat
  EC_USB_PD_MAX_PORTS : Nat
  EC_CMD_GET_CMD_VERSIONS : Nat
  EC_CMD_USB_PD_CONTROL : Nat
  EC_CMD_USB_PD_PORTS : Nat
  EC_CMD_USB_PD_DISCOVERY : Nat

/-- Modelled from the spec: one concrete choice of the missing constants of
`cros_ec_commands.h`, with independent bits for the `enabled` and `role`
masks, used to evaluate the driver on concrete responses. -/
def cros_ec_consts : ec_consts where
  PD_CTRL_RESP_ENABLED_CONNECTED := 2
  PD_CTRL_RESP_ENABLED_PD_CAPABLE := 4
  PD_CTRL_RESP_ROLE_POWER := 1
  PD_CTRL_RESP_ROLE_DATA := 2
  PD_CTRL_RESP_ROLE_VCONN := 4
  EC_USB_PD_MAX_PORTS := 8
  EC_CMD_GET_CMD_VERSIONS := 0x08
  EC_CMD_USB_PD_CONTROL := 0x101
  EC_CMD_USB_PD_PORTS := 0x102
  EC_CMD_USB_PD_DISCOVERY := 0x113

/-- Modelled from the spec: the macro `EC_VER_MASK` of `cros_ec_commands.h` is
not among the sources; the spec reads `EC_VER_MASK(1)` as "bit 1 (schema v1)". -/
def EC_VER_MASK (version : Nat) : Nat := 2 ^ version

/-- Modelled from the spec: errno `ENOMEM` (not among the sources), a positive
error number returned negated. -/
def ENOMEM : Int := 12

/-- Modelled from the spec: errno `EPERM` (not among the sources), a positive
error number returned negated. -/
def EPERM : Int := 1

/-- Modelled from the spec: errno `EOVERFLOW` (not among the sources), the
`TooManyPorts` startup error. -/
def EOVERFLOW : Int := 75

/-- Modelled from the spec: `NOTIFY_DONE` of `linux/notifier.h` (not among the
sources), the value the event handler hands back to the notifier chain. -/
def NOTIFY_DONE : Int := 0

/-- The null pointer. -/
def NULL : Int := 0

/-- Modelled from the spec: `MAX_ERRNO` of `linux/err.h` (not among the
sources); the largest error number an error pointer can carry. -/
def MAX_ERRNO : Int := 4095

/-- Modelled from the spec: `IS_ERR_OR_NULL` of `linux/err.h` (not among the
sources): the pointer is `NULL` or one of the top `MAX_ERRNO` addresses, which
is how "partner creation fails" reaches the driver. -/
def IS_ERR_OR_NULL (p : Int) : Bool := p == 0 || (-MAX_ERRNO ≤ p && p < 0)

/-- Modelled from the spec: `PTR_ERR` of `linux/err.h` (not among the
sources): the pointer read as a signed long. -/
def PTR_ERR (p : Int) : Int := p

/-- The `enum typec_orientation` of `linux/usb/typec.h`. -/
inductive typec_orientation where
  | TYPEC_ORIENTATION_NONE
  | TYPEC_ORIENTATION_NORMAL
  | TYPEC_ORIENTATION_REVERSE
  deriving DecidableEq, Repr

/-- The `enum typec_data_role` of `linux/usb/typec.h`. -/
inductive typec_data_role where
  | TYPEC_DEVICE
  | TYPEC_HOST
  deriving DecidableEq, Repr

/-- The `enum typec_role` of `linux/usb/typec.h`. -/
inductive typec_role where
  | TYPEC_SINK
  | TYPEC_SOURCE
  deriving DecidableEq, Repr

open typec_orientation typec_data_role typec_role

/-- The `struct usb_pd_identity`: 32-bit VDOs. -/
structure usb_pd_identity where
  id_header : Nat
  cert_stat : Nat
  product : Nat
  deriving DecidableEq, Repr

/-- The `struct ec_response_usb_pd_control` (schema v0), `uint8_t` fields; the
`state` byte only feeds a debug message. -/
structure ec_response_usb_pd_control where
  enabled : Nat
  role : Nat
  polarity : Nat
  state : Nat
  deriving DecidableEq, Repr

/-- The `struct ec_response_usb_pd_control_v1` (schema v1), `uint8_t` fields;
the `state` string only feeds a debug message. -/
structure ec_response_usb_pd_control_v1 where
  enabled : Nat
  role : Nat
  polarity : Nat
  state : List Nat
  deriving DecidableEq, Repr

/-- The `struct ec_params_usb_pd_discovery_entry`: `uint16_t vid, pid` and
`uint8_t ptype`. -/
structure ec_params_usb_pd_discovery_entry where
  vid : Nat
  pid : Nat
  ptype : Nat
  deriving DecidableEq, Repr

/-- The `struct ec_response_get_cmd_versions`: a `uint32_t` mask. -/
structure ec_response_get_cmd_versions where
  version_mask : Nat
  deriving DecidableEq, Repr

/-- The `struct ec_response_usb_pd_ports`: a `uint8_t` count. -/
structure ec_response_usb_pd_ports where
  num_ports : Nat
  deriving DecidableEq, Repr

/-- The request payloads the driver sends (`outdata` of
`cros_typec_ec_command`). -/
inductive ec_request where
  /-- Payload `struct ec_params_get_cmd_versions`, `uint8_t cmd`. -/
  | get_cmd_versions (cmd : Int)
  /-- Payload `struct ec_params_get_cmd_versions_v1`, `uint16_t cmd`. -/
  | get_cmd_versions_v1 (cmd : Int)
  /-- No payload: `NULL` with `outsize` 0. -/
  | no_payload
  /-- Payload `struct ec_params_usb_pd_control` with `role`, `mux` and `swap` set to
  their NO_CHANGE / NONE values; `uint8_t port`. -/
  | usb_pd_control (port : Int)
  /-- Payload `struct ec_params_usb_pd_info_request`, `uint8_t port`. -/
  | usb_pd_info_request (port : Int)
  deriving DecidableEq, Repr

/-- Calls that leave the driver, in the order they are made. -/
inductive typec_call where
  /-- A call of `cros_ec_cmd_xfer_status` with the message version, command and payload. -/
  | ec_command (version : Nat) (command : Nat) (outdata : ec_request)
  | typec_set_orientation (port : Int) (orientation : typec_orientation)
  | typec_set_data_role (port : Int) (role : typec_data_role)
  | typec_set_pwr_role (port : Int) (role : typec_role)
  | typec_set_vconn_role (port : Int) (role : typec_role)
  /-- A call `typec_register_partner(port, &p_desc)` with `p_desc.usb_pd` and the
  pointer it returned. -/
  | typec_register_partner (port : Int) (usb_pd : Bool) (ret : Int)
  | typec_unregister_partner (partner : Int)
  /-- A call `typec_partner_set_identity(partner)` with the identity it reads through
  `p_desc.identity`. -/
  | typec_partner_set_identity (partner : Int) (identity : usb_pd_identity)
  deriving DecidableEq, Repr

/-- The two functions `typec->port_update` can point to. -/
inductive port_update_fn where
  | cros_typec_port_update_v0
  | cros_typec_port_update_v1
  deriving DecidableEq, Repr

/-- The `struct port_data`; `port` and `partner` are pointers. The back pointer
`typec` and the constant capability record `caps` are left out. -/
structure port_data where
  port_num : Int
  port : Int
  partner : Int
  p_identity : usb_pd_identity
  deriving DecidableEq, Repr

/-- The `struct typec_data`; `port_update` is `none` while the function pointer
is still zero. -/
structure typec_data where
  ports : Nat → port_data
  num_ports : Nat
  port_update : Option port_update_fn

/-- What the EC side does with one message: whether the message buffer could be
allocated, the return value of `cros_ec_cmd_xfer_status`, and the response
bytes in `msg->data`. -/
structure ec_xfer (α : Type) where
  msg_alloc : Bool
  ret : Int
  data : α

/-- What the outside world answers during one update of one port: the EC to the
control command (either schema) and to the discovery command, the Type-C class
to `typec_register_partner` and `typec_partner_set_identity`, and the contents
of the uninitialised response buffers on the stack. -/
structure port_env where
  control_v0 : ec_xfer ec_response_usb_pd_control
  uninit_v0 : ec_response_usb_pd_control
  control_v1 : ec_xfer ec_response_usb_pd_control_v1
  uninit_v1 : ec_response_usb_pd_control_v1
  register_partner : Int
  discovery : ec_xfer ec_params_usb_pd_discovery_entry
  uninit_discovery : ec_params_usb_pd_discovery_entry
  partner_set_identity : Int

/-- Return value, driver state and calls made by a driver function. -/
structure outcome where
  ret : Int
  typec : typec_data
  log : List typec_call

/-- Store through `typec->ports[idx]->...`. -/
def typec_data.modify_port (typec : typec_data) (idx : Nat) (f : port_data → port_data) :
    typec_data :=
  { typec with ports := fun j => if j = idx then f (typec.ports j) else typec.ports j }

/-! ## The driver -/

/-- The function `cros_typec_ec_command`: one exchange with the EC. `indata` is
the caller's response buffer, returned with the response copied in when the
transfer succeeded and `insize` is non-zero. The log records `command` as the
caller passed it, before `cmd_offset` is added. -/
def cros_typec_ec_command {α : Type} (version : Nat) (command : Nat) (outdata : ec_request)
    (x : ec_xfer α) (indata : α) (insize : Nat) : Int × α × List typec_call :=
  if !x.msg_alloc then
    (-ENOMEM, indata, [])
  else
    let ret := x.ret
    let indata := if 0 ≤ ret ∧ insize ≠ 0 then x.data else indata
    (ret, indata, [typec_call.ec_command version command outdata])

/-- What the EC answers to the two encodings of the version query, and the
uninitialised response buffer. -/
structure version_env where
  query_v1 : ec_xfer ec_response_get_cmd_versions
  query_v0 : ec_xfer ec_response_get_cmd_versions
  uninit_res : ec_response_get_cmd_versions

/-- The function `cros_typec_get_cmd_version`; `version_mask` is the caller's
`uint8_t` out parameter. -/
def cros_typec_get_cmd_version (K : ec_consts) (cmd : Int) (version_mask : Nat)
    (env : version_env) : Int × Nat × List typec_call :=
  let r1 := cros_typec_ec_command 1 K.EC_CMD_GET_CMD_VERSIONS
    (ec_request.get_cmd_versions_v1 (cmd % 65536)) env.query_v1 env.uninit_res 4
  if r1.1 < 0 then
    let r0 := cros_typec_ec_command 0 K.EC_CMD_GET_CMD_VERSIONS
      (ec_request.get_cmd_versions (cmd % 256)) env.query_v0 r1.2.1 4
    if r0.1 < 0 then
      (r0.1, version_mask, r1.2.2 ++ r0.2.2)
    else
      (0, r0.2.1.version_mask % 256, r1.2.2 ++ r0.2.2)
  else
    (0, r1.2.1.version_mask % 256, r1.2.2)

/-- The function `cros_typec_query_pd_port_count`. -/
def cros_typec_query_pd_port_count (K : ec_consts) (typec : typec_data)
    (x : ec_xfer ec_response_usb_pd_ports) (uninit : ec_response_usb_pd_ports) : outcome :=
  let r := cros_typec_ec_command 0 K.EC_CMD_USB_PD_PORTS ec_request.no_payload x uninit 1
  if r.1 < 0 then
    ⟨r.1, typec, r.2.2⟩
  else
    ⟨0, { typec with num_ports := r.2.1.num_ports }, r.2.2⟩

/-- The function `cros_typec_port_update`: fetch the control response of one
port at schema `cmd_ver` into the caller's buffer `res`. -/
def cros_typec_port_update {α : Type} (K : ec_consts) (typec : typec_data) (port_num : Int)
    (x : ec_xfer α) (res : α) (res_size : Nat) (cmd_ver : Nat) : Int × α × List typec_call :=
  if port_num < 0 ∨ (typec.num_ports : Int) ≤ port_num then
    (-EPERM, res, [])
  else
    let r := cros_typec_ec_command cmd_ver K.EC_CMD_USB_PD_CONTROL
      (ec_request.usb_pd_control (port_num % 256)) x res res_size
    if r.1 < 0 then
      (r.1, r.2.1, r.2.2)
    else
      (0, r.2.1, r.2.2)

/-- The function `cros_typec_query_pd_info`. -/
def cros_typec_query_pd_info (K : ec_consts) (typec : typec_data) (port_num : Int)
    (env : port_env) : outcome :=
  let r := cros_typec_ec_command 0 K.EC_CMD_USB_PD_DISCOVERY
    (ec_request.usb_pd_info_request (port_num % 256)) env.discovery env.uninit_discovery 5
  if r.1 < 0 then
    ⟨r.1, typec, r.2.2⟩
  else
    let res := r.2.1
    let typec1 := typec.modify_port port_num.toNat
      (fun p => { p with p_identity := { p.p_identity with id_header := res.vid } })
    let typec2 := typec1.modify_port port_num.toNat
      (fun p => { p with p_identity := { p.p_identity with product := (res.pid <<< 16) % 2 ^ 32 } })
    ⟨0, typec2, r.2.2⟩

/-- The function `cros_typec_port_update_v0`. -/
def cros_typec_port_update_v0 (K : ec_consts) (typec : typec_data) (port_num : Int)
    (env : port_env) : outcome :=
  let port := typec.ports port_num.toNat
  let r := cros_typec_port_update K typec port_num env.control_v0 env.uninit_v0 4 0
  if r.1 < 0 then
    ⟨r.1, typec, r.2.2⟩
  else
    let res := r.2.1
    let polarity :=
      if res.enabled = 0 then TYPEC_ORIENTATION_NONE
      else if res.polarity = 0 then TYPEC_ORIENTATION_NORMAL
      else TYPEC_ORIENTATION_REVERSE
    ⟨0, typec, r.2.2 ++
      [typec_call.typec_set_pwr_role port.port (if res.role ≠ 0 then TYPEC_SOURCE else TYPEC_SINK),
       typec_call.typec_set_orientation port.port polarity]⟩

/-- The function `cros_typec_add_partner`. -/
def cros_typec_add_partner (K : ec_consts) (typec : typec_data) (port_num : Int)
    (pd_enabled : Bool) (env : port_env) : outcome :=
  let idx := port_num.toNat
  let log1 := [typec_call.typec_register_partner (typec.ports idx).port pd_enabled
    env.register_partner]
  let typec1 := typec.modify_port idx (fun p => { p with partner := env.register_partner })
  if IS_ERR_OR_NULL (typec1.ports idx).partner then
    let typec2 := typec1.modify_port idx (fun p => { p with partner := NULL })
    ⟨PTR_ERR (typec2.ports idx).partner, typec2, log1⟩
  else
    let q := cros_typec_query_pd_info K typec1 port_num env
    if q.ret < 0 then
      ⟨q.ret, q.typec.modify_port idx (fun p => { p with partner := NULL }),
        log1 ++ q.log ++ [typec_call.typec_unregister_partner (q.typec.ports idx).partner]⟩
    else
      ⟨env.partner_set_identity, q.typec,
        log1 ++ q.log ++ [typec_call.typec_partner_set_identity (q.typec.ports idx).partner
          (q.typec.ports idx).p_identity]⟩

/-- The tail of `cros_typec_set_port_params_v1_v2` (its second `if` and the
final `return 0`), reached when no partner was added or adding one failed. -/
def cros_typec_set_port_params_v1_v2_detach (K : ec_consts) (typec : typec_data) (idx : Nat)
    (res : ec_response_usb_pd_control_v1) (log : List typec_call) : outcome :=
  if (res.enabled &&& K.PD_CTRL_RESP_ENABLED_CONNECTED) = 0 ∧ (typec.ports idx).partner ≠ NULL then
    ⟨0, typec.modify_port idx (fun p => { p with partner := NULL }),
      log ++ [typec_call.typec_unregister_partner (typec.ports idx).partner]⟩
  else
    ⟨0, typec, log⟩

/-- The function `cros_typec_set_port_params_v1_v2`. -/
def cros_typec_set_port_params_v1_v2 (K : ec_consts) (typec : typec_data) (port_num : Int)
    (res : ec_response_usb_pd_control_v1) (env : port_env) : outcome :=
  let idx := port_num.toNat
  let port := typec.ports idx
  let polarity :=
    if (res.enabled &&& K.PD_CTRL_RESP_ENABLED_CONNECTED) = 0 then TYPEC_ORIENTATION_NONE
    else if res.polarity = 0 then TYPEC_ORIENTATION_NORMAL
    else TYPEC_ORIENTATION_REVERSE
  let log :=
    [typec_call.typec_set_orientation port.port polarity,
     typec_call.typec_set_data_role port.port
       (if (res.role &&& K.PD_CTRL_RESP_ROLE_DATA) ≠ 0 then TYPEC_HOST else TYPEC_DEVICE),
     typec_call.typec_set_pwr_role port.port
       (if (res.role &&& K.PD_CTRL_RESP_ROLE_POWER) ≠ 0 then TYPEC_SOURCE else TYPEC_SINK),
     typec_call.typec_set_vconn_role port.port
       (if (res.role &&& K.PD_CTRL_RESP_ROLE_VCONN) ≠ 0 then TYPEC_SOURCE else TYPEC_SINK)]
  if (res.enabled &&& K.PD_CTRL_RESP_ENABLED_CONNECTED) ≠ 0 ∧ port.partner = NULL then
    let pd_enabled : Bool := decide ((res.enabled &&& K.PD_CTRL_RESP_ENABLED_PD_CAPABLE) ≠ 0)
    let a := cros_typec_add_partner K typec port_num pd_enabled env
    if a.ret = 0 then
      ⟨a.ret, a.typec, log ++ a.log⟩
    else
      cros_typec_set_port_params_v1_v2_detach K a.typec idx res (log ++ a.log)
  else
    cros_typec_set_port_params_v1_v2_detach K typec idx res log

/-- The function `cros_typec_port_update_v1`. -/
def cros_typec_port_update_v1 (K : ec_consts) (typec : typec_data) (port_num : Int)
    (env : port_env) : outcome :=
  let r := cros_typec_port_update K typec port_num env.control_v1 env.uninit_v1 35 1
  if r.1 < 0 then
    ⟨r.1, typec, r.2.2⟩
  else
    let s := cros_typec_set_port_params_v1_v2 K typec port_num r.2.1 env
    ⟨s.ret, s.typec, r.2.2 ++ s.log⟩

/-- A call through the function pointer `typec->port_update`. -/
def call_port_update (f : port_update_fn) (K : ec_consts) (typec : typec_data)
    (port_num : Int) (env : port_env) : outcome :=
  match f with
  | port_update_fn.cros_typec_port_update_v0 => cros_typec_port_update_v0 K typec port_num env
  | port_update_fn.cros_typec_port_update_v1 => cros_typec_port_update_v1 K typec port_num env

/-- The `for` loop of `cros_typec_ec_event`, entered with loop variable `i`;
`fuel` bounds the number of iterations. The result is `none` when the fuel runs
out or the loop calls through a zero `typec->port_update`. -/
def cros_typec_ec_event_loop (K : ec_consts) :
    Nat → typec_data → Nat → (Nat → port_env) → Option (typec_data × List typec_call)
  | 0, typec, i, _ => if i < typec.num_ports then none else some (typec, [])
  | fuel + 1, typec, i, env =>
    if i < typec.num_ports then
      match typec.port_update with
      | none => none
      | some f =>
        let r := call_port_update f K typec (i : Int) (env i)
        (cros_typec_ec_event_loop K fuel r.typec (i + 1) env).map
          (fun s => (s.1, r.log ++ s.2))
    else
      some (typec, [])

/-- The function `cros_typec_ec_event`; `env i` is what the outside world
answers while port `i` is updated. -/
def cros_typec_ec_event (K : ec_consts) (typec : typec_data) (env : Nat → port_env) :
    Option outcome :=
  (cros_typec_ec_event_loop K typec.num_ports typec 0 env).map
    (fun s => ⟨NOTIFY_DONE, s.1, s.2⟩)

/-- What the EC answers during the first half of `cros_typec_probe`, and the
uninitialised locals. -/
structure probe_env where
  port_count : ec_xfer ec_response_usb_pd_ports
  uninit_ports : ec_response_usb_pd_ports
  versions : version_env
  uninit_ver_mask : Nat

/-- How the first half of `cros_typec_probe` ends: it returns an error, or it
goes on to the port registration loop. -/
inductive probe_result where
  | failed (ret : Int) (typec : typec_data) (log : List typec_call)
  | proceeds (typec : typec_data) (log : List typec_call)

/-- The function `cros_typec_probe` from the port-count query to the choice of
`typec->port_update` (source lines 357 to 383); `typec` is the zero-filled
`struct typec_data` allocated just before. The port registration loop and the
notifier registration that follow are not part of this definition. -/
def cros_typec_probe (K : ec_consts) (typec : typec_data) (env : probe_env) : probe_result :=
  let c := cros_typec_query_pd_port_count K typec env.port_count env.uninit_ports
  if c.ret < 0 then
    probe_result.failed c.ret c.typec c.log
  else if K.EC_USB_PD_MAX_PORTS < c.typec.num_ports then
    probe_result.failed (-EOVERFLOW) c.typec c.log
  else
    let v := cros_typec_get_cmd_version K (K.EC_CMD_USB_PD_CONTROL : Int) env.uninit_ver_mask
      env.versions
    if v.1 < 0 then
      probe_result.failed v.1 c.typec (c.log ++ v.2.2)
    else
      let ver_mask := v.2.1
      if (ver_mask &&& EC_VER_MASK 1) ≠ 0 then
        probe_result.proceeds
          { c.typec with port_update := some port_update_fn.cros_typec_port_update_v1 }
          (c.log ++ v.2.2)
      else
        probe_result.proceeds
          { c.typec with port_update := some port_update_fn.cros_typec_port_update_v0 }
          (c.log ++ v.2.2)

/-! ## Observers used to state the properties -/

/-- Whether a call publishes a role or an orientation to the port. -/
def typec_call.is_publish : typec_call → Bool
  | typec_call.typec_set_orientation _ _ => true
  | typec_call.typec_set_data_role _ _ => true
  | typec_call.typec_set_pwr_role _ _ => true
  | typec_call.typec_set_vconn_role _ _ => true
  | _ => false

/-- Calls that create or destroy a partner. -/
def typec_call.is_partner_lifecycle : typec_call → Bool
  | typec_call.typec_register_partner _ _ _ => true
  | typec_call.typec_unregister_partner _ => true
  | _ => false

/-- The port a control-command transfer asks about, for calls that are one. -/
def typec_call.control_port : typec_call → Option Int
  | typec_call.ec_command _ _ (ec_request.usb_pd_control port) => some port
  | _ => none

/-- The partner handles that are registered and not yet unregistered after the
calls of a log, starting from the handles in `live`. A registration that
returned an error pointer or `NULL` created nothing. -/
def live_after : List Int → List typec_call → List Int
  | live, [] => live
  | live, typec_call.typec_register_partner _ _ ret :: rest =>
    live_after (if IS_ERR_OR_NULL ret then live else ret :: live) rest
  | live, typec_call.typec_unregister_partner h :: rest => live_after (live.erase h) rest
  | live, _ :: rest => live_after live rest

/-- Every registration of a log is made while no partner is live and every
unregistration names the one live partner, starting from the handles in
`live`. -/
def disciplined : List Int → List typec_call → Bool
  | _, [] => true
  | live, typec_call.typec_register_partner _ _ ret :: rest =>
    live == [] && disciplined (if IS_ERR_OR_NULL ret then live else ret :: live) rest
  | live, typec_call.typec_unregister_partner h :: rest =>
    live == [h] && disciplined (live.erase h) rest
  | live, _ :: rest => disciplined live rest

/-- The handles a port holds: none for `NULL`, else the one in `partner`. -/
def held (partner : Int) : List Int := if partner = NULL then [] else [partner]

/-- A run of schema v1 updates of one port, one per environment of the list. -/
def run_updates_v1 (K : ec_consts) (port_num : Int) :
    typec_data → List port_env → typec_data × List typec_call
  | typec, [] => (typec, [])
  | typec, env :: rest =>
    let r := cros_typec_port_update_v1 K typec port_num env
    let s := run_updates_v1 K port_num r.typec rest
    (s.1, r.log ++ s.2)

/-- The sweep as the spec words it: the selected update runs once for each
port index of the list, in the order of the list, whatever the earlier updates
returned; the result is the final state, the calls made and the return value
of each update. -/
def sweep_in_order (K : ec_consts) (f : port_update_fn) (env : Nat → port_env) :
    List Nat → typec_data → typec_data × List typec_call × List Int
  | [], typec => (typec, [], [])
  | i :: rest, typec =>
    let r := call_port_update f K typec (i : Int) (env i)
    let s := sweep_in_order K f env rest r.typec
    (s.1, r.log ++ s.2.1, r.ret :: s.2.2)

/-- An exchange with the EC succeeds: the message was allocated and the
transfer returned a non-negative value. -/
def xfer_ok {α : Type} (x : ec_xfer α) : Prop := x.msg_alloc = true ∧ 0 ≤ x.ret

instance {α : Type} (x : ec_xfer α) : Decidable (xfer_ok x) :=
  inferInstanceAs (Decidable (x.msg_alloc = true ∧ 0 ≤ x.ret))

/-- The four calls with which a schema v1 response is published to a port. -/
def published_v1 (K : ec_consts) (port : Int) (res : ec_response_usb_pd_control_v1) :
    List typec_call :=
  [typec_call.typec_set_orientation port
     (if (res.enabled &&& K.PD_CTRL_RESP_ENABLED_CONNECTED) = 0 then
        typec_orientation.TYPEC_ORIENTATION_NONE
      else if res.polarity = 0 then typec_orientation.TYPEC_ORIENTATION_NORMAL
      else typec_orientation.TYPEC_ORIENTATION_REVERSE),
   typec_call.typec_set_data_role port
     (if (res.role &&& K.PD_CTRL_RESP_ROLE_DATA) ≠ 0 then typec_data_role.TYPEC_HOST
      else typec_data_role.TYPEC_DEVICE),
   typec_call.typec_set_pwr_role port
     (if (res.role &&& K.PD_CTRL_RESP_ROLE_POWER) ≠ 0 then typec_role.TYPEC_SOURCE
      else typec_role.TYPEC_SINK),
   typec_call.typec_set_vconn_role port
     (if (res.role &&& K.PD_CTRL_RESP_ROLE_VCONN) ≠ 0 then typec_role.TYPEC_SOURCE
      else typec_role.TYPEC_SINK)]

/-- The transfer a discovery query logs, if its message could be allocated. -/
def discovery_calls (K : ec_consts) (port_num : Int) (env : port_env) : List typec_call :=
  if env.discovery.msg_alloc then
    [typec_call.ec_command 0 K.EC_CMD_USB_PD_DISCOVERY
      (ec_request.usb_pd_info_request (port_num % 256))]
  else []

/-- The control-command fetch of an update succeeds: the port index is in
range and the exchange with the EC succeeds. -/
def fetch_ok {α : Type} (typec : typec_data) (port_num : Int) (x : ec_xfer α) : Prop :=
  0 ≤ port_num ∧ port_num < (typec.num_ports : Int) ∧ xfer_ok x

instance {α : Type} (typec : typec_data) (port_num : Int) (x : ec_xfer α) :
    Decidable (fetch_ok typec port_num x) :=
  inferInstanceAs (Decidable (0 ≤ port_num ∧ port_num < (typec.num_ports : Int) ∧ xfer_ok x))

/-- The transfer a control-command fetch logs: none for a port index out of
range or a message that could not be allocated. -/
def control_calls {α : Type} (K : ec_consts) (cmd_ver : Nat) (typec : typec_data)
    (port_num : Int) (x : ec_xfer α) : List typec_call :=
  if 0 ≤ port_num ∧ port_num < (typec.num_ports : Int) ∧ x.msg_alloc = true then
    [typec_call.ec_command cmd_ver K.EC_CMD_USB_PD_CONTROL
      (ec_request.usb_pd_control (port_num % 256))]
  else []

/-- A driver state with two ports and no partner, for concrete evaluations. -/
def sample_typec : typec_data where
  ports := fun i => ⟨i, 500 + i, NULL, ⟨0, 0, 0⟩⟩
  num_ports := 2
  port_update := some port_update_fn.cros_typec_port_update_v1

/-- An environment in which every exchange and every Type-C class call
succeeds: the EC reports a connected, PD capable partner with vid 0x18d1 and
pid 0x5014, and the class hands out partner handle 1000. -/
def sample_env : port_env where
  control_v0 := ⟨true, 4, ⟨1, 1, 0, 0⟩⟩
  uninit_v0 := ⟨0, 0, 0, 0⟩
  control_v1 := ⟨true, 35, ⟨6, 3, 1, []⟩⟩
  uninit_v1 := ⟨0, 0, 0, []⟩
  register_partner := 1000
  discovery := ⟨true, 5, ⟨0x18d1, 0x5014, 0⟩⟩
  uninit_discovery := ⟨0, 0, 0⟩
  partner_set_identity := 0

/-- The environment `sample_env`, except that `typec_register_partner` fails
with `ERR_PTR(-ENOMEM)`. -/
def sample_env_register_fails : port_env := { sample_env with register_partner := -12 }

/-- The environment `sample_env`, except that the discovery command fails. -/
def sample_env_discovery_fails : port_env :=
  { sample_env with discovery := ⟨true, -5, ⟨0, 0, 0⟩⟩ }

/-- The error `cros_typec_probe` returned, if it returned one. -/
def probe_result.error : probe_result → Option Int
  | probe_result.failed ret _ _ => some ret
  | probe_result.proceeds _ _ => none

/-- The update function `typec->port_update` points to when the first half of
`cros_typec_probe` ends. -/
def probe_result.selected : probe_result → Option port_update_fn
  | probe_result.failed _ typec _ => typec.port_update
  | probe_result.proceeds typec _ => typec.port_update

/-- The calls made during the first half of `cros_typec_probe`. -/
def probe_result.log : probe_result → List typec_call
  | probe_result.failed _ _ log => log
  | probe_result.proceeds _ log => log

/-- The zero-filled `struct typec_data` that `devm_kzalloc` hands to the
probe. -/
def zeroed_typec : typec_data where
  ports := fun _ => ⟨0, NULL, NULL, ⟨0, 0, 0⟩⟩
  num_ports := 0
  port_update := none

/-- A startup environment: the EC reports two ports and answers the newer
encoding of the version query with the given version mask. -/
def sample_probe_env (mask : Nat) : probe_env where
  port_count := ⟨true, 1, ⟨2⟩⟩
  uninit_ports := ⟨0⟩
  versions := ⟨⟨true, 4, ⟨mask⟩⟩, ⟨true, 4, ⟨0⟩⟩, ⟨0⟩⟩
  uninit_ver_mask := 0

/-- The exchange that answers the control command of the selected schema. -/
def control_msg_alloc (f : port_update_fn) (env : port_env) : Bool :=
  match f with
  | port_update_fn.cros_typec_port_update_v0 => env.control_v0.msg_alloc
  | port_update_fn.cros_typec_port_update_v1 => env.control_v1.msg_alloc

/-! ## How each driver function behaves, case by case -/

open typec_orientation typec_data_role typec_role

@[simp] theorem modify_port_ports_same (typec : typec_data) (idx : Nat) (f : port_data → port_data) :
    (typec.modify_port idx f).ports idx = f (typec.ports idx) := by
  simp [typec_data.modify_port]

@[simp] theorem modify_port_num_ports (typec : typec_data) (idx : Nat) (f : port_data → port_data) :
    (typec.modify_port idx f).num_ports = typec.num_ports := rfl

@[simp] theorem modify_port_port_update (typec : typec_data) (idx : Nat) (f : port_data → port_data) :
    (typec.modify_port idx f).port_update = typec.port_update := rfl

theorem ec_command_of_ok {α : Type} (version command : Nat) (outdata : ec_request)
    (x : ec_xfer α) (indata : α) (insize : Nat) (hx : xfer_ok x) (hs : insize ≠ 0) :
    cros_typec_ec_command version command outdata x indata insize =
      (x.ret, x.data, [typec_call.ec_command version command outdata]) := by
  obtain ⟨ha, hr⟩ := hx
  simp [cros_typec_ec_command, ha, hr, hs]

theorem ec_command_of_fail {α : Type} (version command : Nat) (outdata : ec_request)
    (x : ec_xfer α) (indata : α) (insize : Nat) (hx : ¬ xfer_ok x) :
    (cros_typec_ec_command version command outdata x indata insize).1 < 0 ∧
    (cros_typec_ec_command version command outdata x indata insize).2.1 = indata ∧
    (cros_typec_ec_command version command outdata x indata insize).2.2 =
      if x.msg_alloc then [typec_call.ec_command version command outdata] else [] := by
  unfold xfer_ok at hx
  unfold cros_typec_ec_command
  cases ha : x.msg_alloc
  · simp [ENOMEM]
  · simp [ha] at hx
    have : ¬ (0 ≤ x.ret) := by omega
    simp [hx, this]

theorem query_pd_info_of_ok (K : ec_consts) (typec : typec_data) (port_num : Int)
    (env : port_env) (hx : xfer_ok env.discovery) :
    (cros_typec_query_pd_info K typec port_num env).ret = 0 ∧
    (cros_typec_query_pd_info K typec port_num env).log = discovery_calls K port_num env ∧
    (cros_typec_query_pd_info K typec port_num env).typec.num_ports = typec.num_ports ∧
    (cros_typec_query_pd_info K typec port_num env).typec.port_update = typec.port_update ∧
    ((cros_typec_query_pd_info K typec port_num env).typec.ports port_num.toNat).partner =
      (typec.ports port_num.toNat).partner ∧
    ((cros_typec_query_pd_info K typec port_num env).typec.ports port_num.toNat).port =
      (typec.ports port_num.toNat).port ∧
    ((cros_typec_query_pd_info K typec port_num env).typec.ports port_num.toNat).p_identity =
      { (typec.ports port_num.toNat).p_identity with
        id_header := env.discovery.data.vid
        product := (env.discovery.data.pid <<< 16) % 2 ^ 32 } := by
  have hr : ¬ (env.discovery.ret < 0) := by have := hx.2; omega
  simp [cros_typec_query_pd_info, ec_command_of_ok _ _ _ _ _ _ hx, hr, discovery_calls, hx.1]

theorem query_pd_info_of_fail (K : ec_consts) (typec : typec_data) (port_num : Int)
    (env : port_env) (hx : ¬ xfer_ok env.discovery) :
    (cros_typec_query_pd_info K typec port_num env).ret < 0 ∧
    (cros_typec_query_pd_info K typec port_num env).log = discovery_calls K port_num env ∧
    (cros_typec_query_pd_info K typec port_num env).typec = typec := by
  obtain ⟨h1, -, h3⟩ := ec_command_of_fail 0 K.EC_CMD_USB_PD_DISCOVERY
    (ec_request.usb_pd_info_request (port_num % 256)) env.discovery env.uninit_discovery 5 hx
  simp only [cros_typec_query_pd_info, h1, if_true, h3, discovery_calls]
  simp

theorem add_partner_frame (K : ec_consts) (typec : typec_data) (port_num : Int)
    (b : Bool) (env : port_env) :
    (cros_typec_add_partner K typec port_num b env).typec.num_ports = typec.num_ports ∧
    (cros_typec_add_partner K typec port_num b env).typec.port_update = typec.port_update ∧
    ((cros_typec_add_partner K typec port_num b env).typec.ports port_num.toNat).port =
      (typec.ports port_num.toNat).port := by
  unfold cros_typec_add_partner
  simp only []
  split
  · simp
  · by_cases hx : xfer_ok env.discovery
    · obtain ⟨h1, -, h3, h4, -, h6, -⟩ := query_pd_info_of_ok K
        (typec.modify_port port_num.toNat (fun p => { p with partner := env.register_partner }))
        port_num env hx
      simp [h1, h3, h4, h6]
    · obtain ⟨h1, -, h3⟩ := query_pd_info_of_fail K
        (typec.modify_port port_num.toNat (fun p => { p with partner := env.register_partner }))
        port_num env hx
      simp [h1, h3]

theorem add_partner_register_failed (K : ec_consts) (typec : typec_data) (port_num : Int)
    (b : Bool) (env : port_env) (hreg : IS_ERR_OR_NULL env.register_partner = true) :
    (cros_typec_add_partner K typec port_num b env).ret = 0 ∧
    (cros_typec_add_partner K typec port_num b env).log =
      [typec_call.typec_register_partner (typec.ports port_num.toNat).port b
        env.register_partner] ∧
    ((cros_typec_add_partner K typec port_num b env).typec.ports port_num.toNat).partner = NULL ∧
    ((cros_typec_add_partner K typec port_num b env).typec.ports port_num.toNat).p_identity =
      (typec.ports port_num.toNat).p_identity := by
  simp [cros_typec_add_partner, hreg, PTR_ERR, NULL]

theorem add_partner_discovery_failed (K : ec_consts) (typec : typec_data) (port_num : Int)
    (b : Bool) (env : port_env) (hreg : IS_ERR_OR_NULL env.register_partner = false)
    (hx : ¬ xfer_ok env.discovery) :
    (cros_typec_add_partner K typec port_num b env).ret < 0 ∧
    (cros_typec_add_partner K typec port_num b env).log =
      [typec_call.typec_register_partner (typec.ports port_num.toNat).port b
        env.register_partner] ++ discovery_calls K port_num env ++
      [typec_call.typec_unregister_partner env.register_partner] ∧
    ((cros_typec_add_partner K typec port_num b env).typec.ports port_num.toNat).partner = NULL ∧
    ((cros_typec_add_partner K typec port_num b env).typec.ports port_num.toNat).p_identity =
      (typec.ports port_num.toNat).p_identity := by
  obtain ⟨h1, h2, h3⟩ := query_pd_info_of_fail K
    (typec.modify_port port_num.toNat (fun p => { p with partner := env.register_partner }))
    port_num env hx
  simp [cros_typec_add_partner, hreg, h1, h2, h3]

theorem add_partner_attached (K : ec_consts) (typec : typec_data) (port_num : Int)
    (b : Bool) (env : port_env) (hreg : IS_ERR_OR_NULL env.register_partner = false)
    (hx : xfer_ok env.discovery) :
    (cros_typec_add_partner K typec port_num b env).ret = env.partner_set_identity ∧
    (cros_typec_add_partner K typec port_num b env).log =
      [typec_call.typec_register_partner (typec.ports port_num.toNat).port b
        env.register_partner] ++ discovery_calls K port_num env ++
      [typec_call.typec_partner_set_identity env.register_partner
        { (typec.ports port_num.toNat).p_identity with
          id_header := env.discovery.data.vid
          product := (env.discovery.data.pid <<< 16) % 2 ^ 32 }] ∧
    ((cros_typec_add_partner K typec port_num b env).typec.ports port_num.toNat).partner =
      env.register_partner ∧
    ((cros_typec_add_partner K typec port_num b env).typec.ports port_num.toNat).p_identity =
      { (typec.ports port_num.toNat).p_identity with
        id_header := env.discovery.data.vid
        product := (env.discovery.data.pid <<< 16) % 2 ^ 32 } := by
  obtain ⟨h1, h2, -, -, h5, -, h7⟩ := query_pd_info_of_ok K
    (typec.modify_port port_num.toNat (fun p => { p with partner := env.register_partner }))
    port_num env hx
  simp only [modify_port_ports_same] at h5 h7
  simp [cros_typec_add_partner, hreg, h1, h2, h5, h7]

theorem set_port_params_attach (K : ec_consts) (typec : typec_data) (port_num : Int)
    (res : ec_response_usb_pd_control_v1) (env : port_env)
    (hc : (res.enabled &&& K.PD_CTRL_RESP_ENABLED_CONNECTED) ≠ 0)
    (hp : (typec.ports port_num.toNat).partner = NULL) :
    (cros_typec_set_port_params_v1_v2 K typec port_num res env).ret = 0 ∧
    (cros_typec_set_port_params_v1_v2 K typec port_num res env).typec =
      (cros_typec_add_partner K typec port_num
        (decide ((res.enabled &&& K.PD_CTRL_RESP_ENABLED_PD_CAPABLE) ≠ 0)) env).typec ∧
    (cros_typec_set_port_params_v1_v2 K typec port_num res env).log =
      published_v1 K (typec.ports port_num.toNat).port res ++
      (cros_typec_add_partner K typec port_num
        (decide ((res.enabled &&& K.PD_CTRL_RESP_ENABLED_PD_CAPABLE) ≠ 0)) env).log := by
  unfold cros_typec_set_port_params_v1_v2
  simp only []
  rw [if_pos ⟨hc, hp⟩]
  split
  · rename_i h0
    refine ⟨h0, rfl, ?_⟩
    simp [published_v1, hc]
  · unfold cros_typec_set_port_params_v1_v2_detach
    rw [if_neg (fun h => hc h.1)]
    refine ⟨rfl, rfl, ?_⟩
    simp [published_v1, hc]

theorem set_port_params_detach (K : ec_consts) (typec : typec_data) (port_num : Int)
    (res : ec_response_usb_pd_control_v1) (env : port_env)
    (hc : (res.enabled &&& K.PD_CTRL_RESP_ENABLED_CONNECTED) = 0)
    (hp : (typec.ports port_num.toNat).partner ≠ NULL) :
    cros_typec_set_port_params_v1_v2 K typec port_num res env =
      ⟨0, typec.modify_port port_num.toNat (fun p => { p with partner := NULL }),
        published_v1 K (typec.ports port_num.toNat).port res ++
        [typec_call.typec_unregister_partner (typec.ports port_num.toNat).partner]⟩ := by
  unfold cros_typec_set_port_params_v1_v2
  simp only []
  rw [if_neg (fun h => h.1 hc)]
  unfold cros_typec_set_port_params_v1_v2_detach
  rw [if_pos ⟨hc, hp⟩]
  simp [published_v1, hc]

theorem set_port_params_keep (K : ec_consts) (typec : typec_data) (port_num : Int)
    (res : ec_response_usb_pd_control_v1) (env : port_env)
    (h : ((res.enabled &&& K.PD_CTRL_RESP_ENABLED_CONNECTED) ≠ 0 ∧
            (typec.ports port_num.toNat).partner ≠ NULL) ∨
         ((res.enabled &&& K.PD_CTRL_RESP_ENABLED_CONNECTED) = 0 ∧
            (typec.ports port_num.toNat).partner = NULL)) :
    cros_typec_set_port_params_v1_v2 K typec port_num res env =
      ⟨0, typec, published_v1 K (typec.ports port_num.toNat).port res⟩ := by
  unfold cros_typec_set_port_params_v1_v2
  simp only []
  have h1 : ¬ ((res.enabled &&& K.PD_CTRL_RESP_ENABLED_CONNECTED) ≠ 0 ∧
      (typec.ports port_num.toNat).partner = NULL) := by
    rintro ⟨a, b⟩; rcases h with ⟨-, c⟩ | ⟨c, -⟩ <;> contradiction
  have h2 : ¬ ((res.enabled &&& K.PD_CTRL_RESP_ENABLED_CONNECTED) = 0 ∧
      (typec.ports port_num.toNat).partner ≠ NULL) := by
    rintro ⟨a, b⟩; rcases h with ⟨c, -⟩ | ⟨-, c⟩ <;> contradiction
  rw [if_neg h1]
  unfold cros_typec_set_port_params_v1_v2_detach
  rw [if_neg h2]
  simp [published_v1]

theorem port_update_of_ok {α : Type} (K : ec_consts) (typec : typec_data) (port_num : Int)
    (x : ec_xfer α) (res : α) (res_size cmd_ver : Nat) (h : fetch_ok typec port_num x)
    (hs : res_size ≠ 0) :
    cros_typec_port_update K typec port_num x res res_size cmd_ver =
      (0, x.data, control_calls K cmd_ver typec port_num x) := by
  obtain ⟨h0, h1, hx⟩ := h
  have hg : ¬ (port_num < 0 ∨ (typec.num_ports : Int) ≤ port_num) := by omega
  have hr : ¬ (x.ret < 0) := by have := hx.2; omega
  simp [cros_typec_port_update, hg, ec_command_of_ok _ _ _ _ _ _ hx hs, hr, control_calls,
    h0, h1, hx.1]

theorem port_update_of_fail {α : Type} (K : ec_consts) (typec : typec_data) (port_num : Int)
    (x : ec_xfer α) (res : α) (res_size cmd_ver : Nat) (h : ¬ fetch_ok typec port_num x) :
    (cros_typec_port_update K typec port_num x res res_size cmd_ver).1 < 0 ∧
    (cros_typec_port_update K typec port_num x res res_size cmd_ver).2.2 =
      control_calls K cmd_ver typec port_num x := by
  unfold cros_typec_port_update
  by_cases hg : port_num < 0 ∨ (typec.num_ports : Int) ≤ port_num
  · rw [if_pos hg]
    have : ¬ (0 ≤ port_num ∧ port_num < (typec.num_ports : Int) ∧ x.msg_alloc = true) := by
      rintro ⟨a, b, -⟩; omega
    simp [control_calls, this, EPERM]
  · rw [if_neg hg]
    have hx : ¬ xfer_ok x := fun hx => h ⟨by omega, by omega, hx⟩
    obtain ⟨h1, -, h3⟩ := ec_command_of_fail cmd_ver K.EC_CMD_USB_PD_CONTROL
      (ec_request.usb_pd_control (port_num % 256)) x res res_size hx
    have h0 : 0 ≤ port_num := by omega
    have h2 : port_num < (typec.num_ports : Int) := by omega
    simp only [h1, if_true, h3, control_calls, h0, h2, true_and]

theorem port_update_v1_of_ok (K : ec_consts) (typec : typec_data) (port_num : Int)
    (env : port_env) (h : fetch_ok typec port_num env.control_v1) :
    cros_typec_port_update_v1 K typec port_num env =
      ⟨(cros_typec_set_port_params_v1_v2 K typec port_num env.control_v1.data env).ret,
       (cros_typec_set_port_params_v1_v2 K typec port_num env.control_v1.data env).typec,
       control_calls K 1 typec port_num env.control_v1 ++
       (cros_typec_set_port_params_v1_v2 K typec port_num env.control_v1.data env).log⟩ := by
  simp [cros_typec_port_update_v1, port_update_of_ok K typec port_num env.control_v1
    env.uninit_v1 35 1 h (by decide)]

theorem port_update_v1_of_fail (K : ec_consts) (typec : typec_data) (port_num : Int)
    (env : port_env) (h : ¬ fetch_ok typec port_num env.control_v1) :
    (cros_typec_port_update_v1 K typec port_num env).ret < 0 ∧
    (cros_typec_port_update_v1 K typec port_num env).typec = typec ∧
    (cros_typec_port_update_v1 K typec port_num env).log =
      control_calls K 1 typec port_num env.control_v1 := by
  obtain ⟨h1, h2⟩ := port_update_of_fail K typec port_num env.control_v1 env.uninit_v1 35 1 h
  simp only [cros_typec_port_update_v1, h1, if_true, h2]
  simp

theorem port_update_v0_of_ok (K : ec_consts) (typec : typec_data) (port_num : Int)
    (env : port_env) (h : fetch_ok typec port_num env.control_v0) :
    cros_typec_port_update_v0 K typec port_num env =
      ⟨0, typec, control_calls K 0 typec port_num env.control_v0 ++
        [typec_call.typec_set_pwr_role (typec.ports port_num.toNat).port
           (if env.control_v0.data.role ≠ 0 then TYPEC_SOURCE else TYPEC_SINK),
         typec_call.typec_set_orientation (typec.ports port_num.toNat).port
           (if env.control_v0.data.enabled = 0 then TYPEC_ORIENTATION_NONE
            else if env.control_v0.data.polarity = 0 then TYPEC_ORIENTATION_NORMAL
            else TYPEC_ORIENTATION_REVERSE)]⟩ := by
  simp [cros_typec_port_update_v0, port_update_of_ok K typec port_num env.control_v0
    env.uninit_v0 4 0 h (by decide)]

theorem port_update_v0_of_fail (K : ec_consts) (typec : typec_data) (port_num : Int)
    (env : port_env) (h : ¬ fetch_ok typec port_num env.control_v0) :
    (cros_typec_port_update_v0 K typec port_num env).ret < 0 ∧
    (cros_typec_port_update_v0 K typec port_num env).typec = typec ∧
    (cros_typec_port_update_v0 K typec port_num env).log =
      control_calls K 0 typec port_num env.control_v0 := by
  obtain ⟨h1, h2⟩ := port_update_of_fail K typec port_num env.control_v0 env.uninit_v0 4 0 h
  simp only [cros_typec_port_update_v0, h1, if_true, h2]
  simp

/-! ## The claims -/

theorem set_port_params_publish (K : ec_consts) (typec : typec_data) (port_num : Int)
    (res : ec_response_usb_pd_control_v1) (env : port_env) :
    (cros_typec_set_port_params_v1_v2 K typec port_num res env).log.filter
      typec_call.is_publish = published_v1 K (typec.ports port_num.toNat).port res := by
  have hpub : (published_v1 K (typec.ports port_num.toNat).port res).filter
      typec_call.is_publish = published_v1 K (typec.ports port_num.toNat).port res := by
    simp [published_v1, typec_call.is_publish]
  by_cases hc : (res.enabled &&& K.PD_CTRL_RESP_ENABLED_CONNECTED) = 0
  · by_cases hp : (typec.ports port_num.toNat).partner = NULL
    · rw [set_port_params_keep K typec port_num res env (Or.inr ⟨hc, hp⟩)]
      exact hpub
    · rw [set_port_params_detach K typec port_num res env hc hp]
      simp [List.filter_append, hpub, typec_call.is_publish]
  · by_cases hp : (typec.ports port_num.toNat).partner = NULL
    · rw [(set_port_params_attach K typec port_num res env hc hp).2.2, List.filter_append, hpub]
      by_cases hreg : IS_ERR_OR_NULL env.register_partner = true
      · rw [(add_partner_register_failed K typec port_num _ env hreg).2.1]
        simp [typec_call.is_publish]
      · have hreg2 : IS_ERR_OR_NULL env.register_partner = false := by simpa using hreg
        by_cases hx : xfer_ok env.discovery
        · rw [(add_partner_attached K typec port_num _ env hreg2 hx).2.1]
          simp [List.filter_append, typec_call.is_publish, discovery_calls]
        · rw [(add_partner_discovery_failed K typec port_num _ env hreg2 hx).2.1]
          simp [List.filter_append, typec_call.is_publish, discovery_calls]
    · rw [set_port_params_keep K typec port_num res env (Or.inl ⟨hc, hp⟩)]
      exact hpub

theorem add_partner_register_flag (K : ec_consts) (typec : typec_data) (port_num : Int)
    (b : Bool) (env : port_env) (q : Int) (c : Bool) (ret : Int)
    (h : typec_call.typec_register_partner q c ret ∈
      (cros_typec_add_partner K typec port_num b env).log) : c = b := by
  by_cases hreg : IS_ERR_OR_NULL env.register_partner = true
  · rw [(add_partner_register_failed K typec port_num _ env hreg).2.1] at h
    simp only [List.mem_singleton, typec_call.typec_register_partner.injEq] at h
    exact h.2.1
  · have hreg2 : IS_ERR_OR_NULL env.register_partner = false := by simpa using hreg
    by_cases hx : xfer_ok env.discovery
    · rw [(add_partner_attached K typec port_num _ env hreg2 hx).2.1] at h
      simp only [List.mem_append, List.mem_singleton, typec_call.typec_register_partner.injEq,
        discovery_calls] at h
      rcases h with (h | h) | h
      · exact h.2.1
      · split at h <;> simp at h
      · simp at h
    · rw [(add_partner_discovery_failed K typec port_num _ env hreg2 hx).2.1] at h
      simp only [List.mem_append, List.mem_singleton, typec_call.typec_register_partner.injEq,
        discovery_calls] at h
      rcases h with (h | h) | h
      · exact h.2.1
      · split at h <;> simp at h
      · simp at h

theorem set_port_params_register_flag (K : ec_consts) (typec : typec_data) (port_num : Int)
    (res : ec_response_usb_pd_control_v1) (env : port_env) (q : Int) (c : Bool) (ret : Int)
    (h : typec_call.typec_register_partner q c ret ∈
      (cros_typec_set_port_params_v1_v2 K typec port_num res env).log) :
    c = decide ((res.enabled &&& K.PD_CTRL_RESP_ENABLED_PD_CAPABLE) ≠ 0) := by
  by_cases hc : (res.enabled &&& K.PD_CTRL_RESP_ENABLED_CONNECTED) = 0
  · by_cases hp : (typec.ports port_num.toNat).partner = NULL
    · rw [set_port_params_keep K typec port_num res env (Or.inr ⟨hc, hp⟩)] at h
      simp [published_v1] at h
    · rw [set_port_params_detach K typec port_num res env hc hp] at h
      simp [published_v1] at h
  · by_cases hp : (typec.ports port_num.toNat).partner = NULL
    · rw [(set_port_params_attach K typec port_num res env hc hp).2.2] at h
      rcases List.mem_append.1 h with h | h
      · simp [published_v1] at h
      · exact add_partner_register_flag K typec port_num _ env q c ret h
    · rw [set_port_params_keep K typec port_num res env (Or.inl ⟨hc, hp⟩)] at h
      simp [published_v1] at h

/-- C1: for every schema v1 response and every port state,
`cros_typec_set_port_params_v1_v2` publishes exactly four values to the port,
in this order: the orientation (NONE when the CONNECTED bit is clear, NORMAL
when it is set and the polarity is 0, REVERSE when it is set and the polarity
is not 0), the data role (HOST iff the DATA bit is set), the power role
(SOURCE iff the POWER bit is set) and the VCONN role (SOURCE iff the VCONN bit
is set); every partner registration it makes carries `usb_pd` equal to the
PD_CAPABLE bit. With independent bits, `enabled = CONNECTED|PD_CAPABLE`,
`role = DATA|POWER`, `polarity = 1` publishes REVERSE, HOST, SOURCE, VCONN SINK
and registers the partner with `usb_pd` set. -/
theorem set_port_params_v1_v2_publishes_decoded_roles :
    (∀ (K : ec_consts) (typec : typec_data) (port_num : Int)
        (res : ec_response_usb_pd_control_v1) (env : port_env),
      ∃ o d p v,
        (cros_typec_set_port_params_v1_v2 K typec port_num res env).log.filter
            typec_call.is_publish =
          [typec_call.typec_set_orientation (typec.ports port_num.toNat).port o,
           typec_call.typec_set_data_role (typec.ports port_num.toNat).port d,
           typec_call.typec_set_pwr_role (typec.ports port_num.toNat).port p,
           typec_call.typec_set_vconn_role (typec.ports port_num.toNat).port v] ∧
        ((res.enabled &&& K.PD_CTRL_RESP_ENABLED_CONNECTED) = 0 → o = TYPEC_ORIENTATION_NONE) ∧
        ((res.enabled &&& K.PD_CTRL_RESP_ENABLED_CONNECTED) ≠ 0 → res.polarity = 0 →
          o = TYPEC_ORIENTATION_NORMAL) ∧
        ((res.enabled &&& K.PD_CTRL_RESP_ENABLED_CONNECTED) ≠ 0 → res.polarity ≠ 0 →
          o = TYPEC_ORIENTATION_REVERSE) ∧
        (d = TYPEC_HOST ↔ (res.role &&& K.PD_CTRL_RESP_ROLE_DATA) ≠ 0) ∧
        (d = TYPEC_DEVICE ↔ (res.role &&& K.PD_CTRL_RESP_ROLE_DATA) = 0) ∧
        (p = TYPEC_SOURCE ↔ (res.role &&& K.PD_CTRL_RESP_ROLE_POWER) ≠ 0) ∧
        (p = TYPEC_SINK ↔ (res.role &&& K.PD_CTRL_RESP_ROLE_POWER) = 0) ∧
        (v = TYPEC_SOURCE ↔ (res.role &&& K.PD_CTRL_RESP_ROLE_VCONN) ≠ 0) ∧
        (v = TYPEC_SINK ↔ (res.role &&& K.PD_CTRL_RESP_ROLE_VCONN) = 0) ∧
        (∀ q c ret, typec_call.typec_register_partner q c ret ∈
            (cros_typec_set_port_params_v1_v2 K typec port_num res env).log →
          (c = true ↔ (res.enabled &&& K.PD_CTRL_RESP_ENABLED_PD_CAPABLE) ≠ 0))) ∧
    (cros_typec_set_port_params_v1_v2 cros_ec_consts sample_typec 0
        ⟨2 ||| 4, 2 ||| 1, 1, []⟩ sample_env).log =
      [typec_call.typec_set_orientation 500 TYPEC_ORIENTATION_REVERSE,
       typec_call.typec_set_data_role 500 TYPEC_HOST,
       typec_call.typec_set_pwr_role 500 TYPEC_SOURCE,
       typec_call.typec_set_vconn_role 500 TYPEC_SINK,
       typec_call.typec_register_partner 500 true 1000,
       typec_call.ec_command 0 0x113 (ec_request.usb_pd_info_request 0),
       typec_call.typec_partner_set_identity 1000 ⟨0x18d1, 0, 0x50140000⟩] := by
  refine ⟨?_, by decide⟩
  intro K typec port_num res env
  refine ⟨if (res.enabled &&& K.PD_CTRL_RESP_ENABLED_CONNECTED) = 0 then TYPEC_ORIENTATION_NONE
      else if res.polarity = 0 then TYPEC_ORIENTATION_NORMAL else TYPEC_ORIENTATION_REVERSE,
    if (res.role &&& K.PD_CTRL_RESP_ROLE_DATA) ≠ 0 then TYPEC_HOST else TYPEC_DEVICE,
    if (res.role &&& K.PD_CTRL_RESP_ROLE_POWER) ≠ 0 then TYPEC_SOURCE else TYPEC_SINK,
    if (res.role &&& K.PD_CTRL_RESP_ROLE_VCONN) ≠ 0 then TYPEC_SOURCE else TYPEC_SINK,
    ?_, ?_, ?_, ?_, ?_, ?_, ?_, ?_, ?_, ?_, ?_⟩
  · rw [set_port_params_publish]
    rfl
  · intro h; simp [h]
  · intro h h2; simp [h, h2]
  · intro h h2; simp [h, h2]
  · by_cases h : (res.role &&& K.PD_CTRL_RESP_ROLE_DATA) = 0 <;> simp [h]
  · by_cases h : (res.role &&& K.PD_CTRL_RESP_ROLE_DATA) = 0 <;> simp [h]
  · by_cases h : (res.role &&& K.PD_CTRL_RESP_ROLE_POWER) = 0 <;> simp [h]
  · by_cases h : (res.role &&& K.PD_CTRL_RESP_ROLE_POWER) = 0 <;> simp [h]
  · by_cases h : (res.role &&& K.PD_CTRL_RESP_ROLE_VCONN) = 0 <;> simp [h]
  · by_cases h : (res.role &&& K.PD_CTRL_RESP_ROLE_VCONN) = 0 <;> simp [h]
  · intro q c ret h
    have := set_port_params_register_flag K typec port_num res env q c ret h
    simp [this]

/-- C2 (counterexample): a completed update can leave a connected port
without a partner. Under schema v0 the fetch succeeds and the response is
connected (`enabled = 1`), yet the partner handle is still `NULL`; under
schema v1 the same happens when `typec_register_partner` fails and when the
discovery command fails. -/
theorem partner_handle_not_iff_connected :
    (fetch_ok sample_typec 0 sample_env.control_v0 ∧
      sample_env.control_v0.data.enabled ≠ 0 ∧
      ((cros_typec_port_update_v0 cros_ec_consts sample_typec 0 sample_env).typec.ports 0).partner
        = NULL) ∧
    (fetch_ok sample_typec 0 sample_env_register_fails.control_v1 ∧
      (sample_env_register_fails.control_v1.data.enabled &&&
        cros_ec_consts.PD_CTRL_RESP_ENABLED_CONNECTED) ≠ 0 ∧
      ((cros_typec_port_update_v1 cros_ec_consts sample_typec 0
        sample_env_register_fails).typec.ports 0).partner = NULL) ∧
    (fetch_ok sample_typec 0 sample_env_discovery_fails.control_v1 ∧
      (sample_env_discovery_fails.control_v1.data.enabled &&&
        cros_ec_consts.PD_CTRL_RESP_ENABLED_CONNECTED) ≠ 0 ∧
      ((cros_typec_port_update_v1 cros_ec_consts sample_typec 0
        sample_env_discovery_fails).typec.ports 0).partner = NULL) := by
  decide

theorem set_port_params_partner (K : ec_consts) (typec : typec_data) (port_num : Int)
    (res : ec_response_usb_pd_control_v1) (env : port_env) :
    ((cros_typec_set_port_params_v1_v2 K typec port_num res env).typec.ports
        port_num.toNat).partner =
      if (res.enabled &&& K.PD_CTRL_RESP_ENABLED_CONNECTED) = 0 then NULL
      else if (typec.ports port_num.toNat).partner ≠ NULL then (typec.ports port_num.toNat).partner
      else if IS_ERR_OR_NULL env.register_partner = false ∧ xfer_ok env.discovery then
        env.register_partner
      else NULL := by
  by_cases hc : (res.enabled &&& K.PD_CTRL_RESP_ENABLED_CONNECTED) = 0
  · rw [if_pos hc]
    by_cases hp : (typec.ports port_num.toNat).partner = NULL
    · rw [set_port_params_keep K typec port_num res env (Or.inr ⟨hc, hp⟩)]
      exact hp
    · rw [set_port_params_detach K typec port_num res env hc hp]
      simp
  · rw [if_neg hc]
    by_cases hp : (typec.ports port_num.toNat).partner = NULL
    · rw [if_neg (not_not.2 hp), (set_port_params_attach K typec port_num res env hc hp).2.1]
      by_cases hreg : IS_ERR_OR_NULL env.register_partner = true
      · rw [(add_partner_register_failed K typec port_num _ env hreg).2.2.1]
        simp [hreg]
      · have hreg2 : IS_ERR_OR_NULL env.register_partner = false := by simpa using hreg
        by_cases hx : xfer_ok env.discovery
        · rw [(add_partner_attached K typec port_num _ env hreg2 hx).2.2.1]
          simp [hreg2, hx]
        · rw [(add_partner_discovery_failed K typec port_num _ env hreg2 hx).2.2.1]
          simp [hx]
    · rw [if_pos hp, set_port_params_keep K typec port_num res env (Or.inl ⟨hc, hp⟩)]

theorem not_null_of_not_err_or_null (p : Int) (h : IS_ERR_OR_NULL p = false) : p ≠ NULL := by
  intro h0
  simp [IS_ERR_OR_NULL, NULL, h0] at h

/-- C2 (amended): after a schema v1 update whose fetch succeeded, the partner
handle is non-NULL iff the response had the CONNECTED bit set and either the
port already held a partner or registration and discovery both succeeded in
this update; a schema v0 update never changes the driver state, so it leaves
the partner handle as it was. -/
theorem partner_handle_after_update (K : ec_consts) (typec : typec_data) (port_num : Int)
    (env : port_env) (hfetch : fetch_ok typec port_num env.control_v1) :
    (((cros_typec_port_update_v1 K typec port_num env).typec.ports port_num.toNat).partner ≠ NULL ↔
      (env.control_v1.data.enabled &&& K.PD_CTRL_RESP_ENABLED_CONNECTED) ≠ 0 ∧
      ((typec.ports port_num.toNat).partner ≠ NULL ∨
        (IS_ERR_OR_NULL env.register_partner = false ∧ xfer_ok env.discovery))) ∧
    (cros_typec_port_update_v0 K typec port_num env).typec = typec := by
  refine ⟨?_, ?_⟩
  · rw [port_update_v1_of_ok K typec port_num env hfetch]
    show ((cros_typec_set_port_params_v1_v2 K typec port_num env.control_v1.data env).typec.ports
      port_num.toNat).partner ≠ NULL ↔ _
    rw [set_port_params_partner]
    by_cases hc : (env.control_v1.data.enabled &&& K.PD_CTRL_RESP_ENABLED_CONNECTED) = 0
    · simp [hc]
    · by_cases hp : (typec.ports port_num.toNat).partner = NULL
      · by_cases hrx : IS_ERR_OR_NULL env.register_partner = false ∧ xfer_ok env.discovery
        · simp [hc, hp, hrx, not_null_of_not_err_or_null _ hrx.1]
        · simp only [hc, hp, hrx, if_false, ne_eq, not_true_eq_false, not_false_eq_true,
            false_or, and_false]
      · simp [hc, hp]
  · by_cases h0 : fetch_ok typec port_num env.control_v0
    · rw [port_update_v0_of_ok K typec port_num env h0]
    · exact (port_update_v0_of_fail K typec port_num env h0).2.1

/-- C2 (witness): the amended statement at the sample state, where the fetch
succeeds. -/
theorem partner_handle_after_update_witness :
    fetch_ok sample_typec 0 sample_env.control_v1 ∧
    (((cros_typec_port_update_v1 cros_ec_consts sample_typec 0 sample_env).typec.ports
        (0 : Int).toNat).partner ≠ NULL ↔
      (sample_env.control_v1.data.enabled &&& cros_ec_consts.PD_CTRL_RESP_ENABLED_CONNECTED) ≠ 0 ∧
      ((sample_typec.ports (0 : Int).toNat).partner ≠ NULL ∨
        (IS_ERR_OR_NULL sample_env.register_partner = false ∧ xfer_ok sample_env.discovery))) ∧
    (cros_typec_port_update_v0 cros_ec_consts sample_typec 0 sample_env).typec = sample_typec :=
  ⟨by decide, partner_handle_after_update cros_ec_consts sample_typec 0 sample_env (by decide)⟩

/-- C3 (the code at the failing input): the port has no partner, the response
is connected and `typec_register_partner` returns `ERR_PTR(-ENOMEM)`; both
`cros_typec_add_partner` and `cros_typec_set_port_params_v1_v2` return 0. -/
theorem register_failure_returns_zero :
    (sample_typec.ports 0).partner = NULL ∧
    IS_ERR_OR_NULL sample_env_register_fails.register_partner = true ∧
    ((6 : Nat) &&& cros_ec_consts.PD_CTRL_RESP_ENABLED_CONNECTED) ≠ 0 ∧
    (cros_typec_add_partner cros_ec_consts sample_typec 0 true sample_env_register_fails).ret
      = 0 ∧
    (cros_typec_set_port_params_v1_v2 cros_ec_consts sample_typec 0 ⟨6, 3, 1, []⟩
      sample_env_register_fails).ret = 0 := by
  decide

theorem control_calls_not_lifecycle {α : Type} (K : ec_consts) (cmd_ver : Nat)
    (typec : typec_data) (port_num : Int) (x : ec_xfer α) :
    (control_calls K cmd_ver typec port_num x).filter typec_call.is_partner_lifecycle = [] := by
  unfold control_calls
  split <;> simp [typec_call.is_partner_lifecycle]

theorem discovery_calls_not_lifecycle (K : ec_consts) (port_num : Int) (env : port_env) :
    (discovery_calls K port_num env).filter typec_call.is_partner_lifecycle = [] := by
  unfold discovery_calls
  split <;> simp [typec_call.is_partner_lifecycle]

theorem published_v1_not_lifecycle (K : ec_consts) (port : Int)
    (res : ec_response_usb_pd_control_v1) :
    (published_v1 K port res).filter typec_call.is_partner_lifecycle = [] := by
  simp [published_v1, typec_call.is_partner_lifecycle]

theorem set_identity_not_mem_control_calls {α : Type} (K : ec_consts) (cmd_ver : Nat)
    (typec : typec_data) (port_num : Int) (x : ec_xfer α) (h : Int) (id : usb_pd_identity) :
    typec_call.typec_partner_set_identity h id ∉ control_calls K cmd_ver typec port_num x := by
  unfold control_calls
  split <;> simp

theorem set_identity_not_mem_discovery_calls (K : ec_consts) (port_num : Int) (env : port_env)
    (h : Int) (id : usb_pd_identity) :
    typec_call.typec_partner_set_identity h id ∉ discovery_calls K port_num env := by
  unfold discovery_calls
  split <;> simp

/-- C4: in a schema v1 update of a port without a partner whose response has
the CONNECTED bit set, when `typec_register_partner` succeeds and the discovery
command then fails, the only partner lifecycle calls of the update are the
registration followed by one unregistration of the handle just registered,
`typec_partner_set_identity` is not called, the cached identity is unchanged
and the partner handle is `NULL` when the update returns. -/
theorem discovery_failure_unregisters_partner (K : ec_consts) (typec : typec_data)
    (port_num : Int) (env : port_env)
    (hfetch : fetch_ok typec port_num env.control_v1)
    (hp : (typec.ports port_num.toNat).partner = NULL)
    (hc : (env.control_v1.data.enabled &&& K.PD_CTRL_RESP_ENABLED_CONNECTED) ≠ 0)
    (hreg : IS_ERR_OR_NULL env.register_partner = false)
    (hx : ¬ xfer_ok env.discovery) :
    (cros_typec_port_update_v1 K typec port_num env).log.filter
        typec_call.is_partner_lifecycle =
      [typec_call.typec_register_partner (typec.ports port_num.toNat).port
         (decide ((env.control_v1.data.enabled &&& K.PD_CTRL_RESP_ENABLED_PD_CAPABLE) ≠ 0))
         env.register_partner,
       typec_call.typec_unregister_partner env.register_partner] ∧
    (cros_typec_port_update_v1 K typec port_num env).log.count
      (typec_call.typec_unregister_partner env.register_partner) = 1 ∧
    (∀ h id, typec_call.typec_partner_set_identity h id ∉
      (cros_typec_port_update_v1 K typec port_num env).log) ∧
    ((cros_typec_port_update_v1 K typec port_num env).typec.ports port_num.toNat).p_identity =
      (typec.ports port_num.toNat).p_identity ∧
    ((cros_typec_port_update_v1 K typec port_num env).typec.ports port_num.toNat).partner =
      NULL := by
  obtain ⟨-, hlog, hpartner, hid⟩ := add_partner_discovery_failed K typec port_num
    (decide ((env.control_v1.data.enabled &&& K.PD_CTRL_RESP_ENABLED_PD_CAPABLE) ≠ 0)) env hreg hx
  obtain ⟨-, htypec, hlog2⟩ := set_port_params_attach K typec port_num env.control_v1.data env hc hp
  rw [port_update_v1_of_ok K typec port_num env hfetch]
  simp only [htypec, hlog2, hlog]
  refine ⟨?_, ?_, ?_, hid, hpartner⟩
  · simp only [List.filter_append, control_calls_not_lifecycle, published_v1_not_lifecycle,
      discovery_calls_not_lifecycle]
    simp [typec_call.is_partner_lifecycle]
  · have h1 : (control_calls K 1 typec port_num env.control_v1).count
        (typec_call.typec_unregister_partner env.register_partner) = 0 := by
      unfold control_calls; split <;> simp
    have h2 : (discovery_calls K port_num env).count
        (typec_call.typec_unregister_partner env.register_partner) = 0 := by
      unfold discovery_calls; split <;> simp
    have h3 : (published_v1 K (typec.ports port_num.toNat).port env.control_v1.data).count
        (typec_call.typec_unregister_partner env.register_partner) = 0 := by
      simp [published_v1]
    simp only [List.count_append, h1, h2, h3]
    simp
  · intro h id hm
    simp only [List.mem_append] at hm
    rcases hm with hm | (hm | ((hm | hm) | hm))
    · exact set_identity_not_mem_control_calls K 1 typec port_num env.control_v1 h id hm
    · simp [published_v1] at hm
    · simp at hm
    · exact set_identity_not_mem_discovery_calls K port_num env h id hm
    · simp at hm

/-- C4 (witness): the sample port with the discovery command failing. -/
theorem discovery_failure_unregisters_partner_witness :
    (cros_typec_port_update_v1 cros_ec_consts sample_typec 0 sample_env_discovery_fails).log.filter
        typec_call.is_partner_lifecycle =
      [typec_call.typec_register_partner (sample_typec.ports (0 : Int).toNat).port
         (decide ((sample_env_discovery_fails.control_v1.data.enabled &&&
           cros_ec_consts.PD_CTRL_RESP_ENABLED_PD_CAPABLE) ≠ 0))
         sample_env_discovery_fails.register_partner,
       typec_call.typec_unregister_partner sample_env_discovery_fails.register_partner] ∧
    (cros_typec_port_update_v1 cros_ec_consts sample_typec 0 sample_env_discovery_fails).log.count
      (typec_call.typec_unregister_partner sample_env_discovery_fails.register_partner) = 1 ∧
    (∀ h id, typec_call.typec_partner_set_identity h id ∉
      (cros_typec_port_update_v1 cros_ec_consts sample_typec 0 sample_env_discovery_fails).log) ∧
    ((cros_typec_port_update_v1 cros_ec_consts sample_typec 0
        sample_env_discovery_fails).typec.ports (0 : Int).toNat).p_identity =
      (sample_typec.ports (0 : Int).toNat).p_identity ∧
    ((cros_typec_port_update_v1 cros_ec_consts sample_typec 0
        sample_env_discovery_fails).typec.ports (0 : Int).toNat).partner = NULL :=
  discovery_failure_unregisters_partner cros_ec_consts sample_typec 0 sample_env_discovery_fails
    (by decide) (by decide) (by decide) (by decide) (by decide)

/-- C5 (counterexample): attach then detach on the sample port. After the
round trip the partner handle is `NULL` but the cached identity still holds
the discovered vid and pid, so it is not cleared. -/
theorem round_trip_identity_not_cleared :
    (sample_typec.ports 0).partner = NULL ∧
    ((cros_typec_set_port_params_v1_v2 cros_ec_consts
        (cros_typec_set_port_params_v1_v2 cros_ec_consts sample_typec 0 ⟨2 ||| 4, 3, 1, []⟩
          sample_env).typec 0 ⟨0, 0, 0, []⟩ sample_env).typec.ports 0).partner = NULL ∧
    ((cros_typec_set_port_params_v1_v2 cros_ec_consts
        (cros_typec_set_port_params_v1_v2 cros_ec_consts sample_typec 0 ⟨2 ||| 4, 3, 1, []⟩
          sample_env).typec 0 ⟨0, 0, 0, []⟩ sample_env).typec.ports 0).p_identity.id_header
      = 0x18d1 ∧
    ((cros_typec_set_port_params_v1_v2 cros_ec_consts
        (cros_typec_set_port_params_v1_v2 cros_ec_consts sample_typec 0 ⟨2 ||| 4, 3, 1, []⟩
          sample_env).typec 0 ⟨0, 0, 0, []⟩ sample_env).typec.ports 0).p_identity.product
      = 0x50140000 ∧
    ¬ (((cros_typec_set_port_params_v1_v2 cros_ec_consts
        (cros_typec_set_port_params_v1_v2 cros_ec_consts sample_typec 0 ⟨2 ||| 4, 3, 1, []⟩
          sample_env).typec 0 ⟨0, 0, 0, []⟩ sample_env).typec.ports 0).p_identity.id_header = 0 ∧
      ((cros_typec_set_port_params_v1_v2 cros_ec_consts
        (cros_typec_set_port_params_v1_v2 cros_ec_consts sample_typec 0 ⟨2 ||| 4, 3, 1, []⟩
          sample_env).typec 0 ⟨0, 0, 0, []⟩ sample_env).typec.ports 0).p_identity.product = 0) := by
  decide

theorem set_port_params_identity_of_not_connected (K : ec_consts) (typec : typec_data)
    (port_num : Int) (res : ec_response_usb_pd_control_v1) (env : port_env)
    (hc : (res.enabled &&& K.PD_CTRL_RESP_ENABLED_CONNECTED) = 0) :
    ((cros_typec_set_port_params_v1_v2 K typec port_num res env).typec.ports
      port_num.toNat).p_identity = (typec.ports port_num.toNat).p_identity := by
  by_cases hp : (typec.ports port_num.toNat).partner = NULL
  · rw [set_port_params_keep K typec port_num res env (Or.inr ⟨hc, hp⟩)]
  · rw [set_port_params_detach K typec port_num res env hc hp]
    simp

/-- C5 (amended): starting from a port with no partner, applying a schema v1
response with CONNECTED and PD_CAPABLE set (registration and discovery both
succeeding, for any discovered vid and pid) registers the partner as PD
capable, and then applying a response with CONNECTED clear leaves the partner
handle `NULL` while the cached identity keeps the discovered values:
`id_header` is the vid and `product` is the pid shifted into the high 16
bits. -/
theorem round_trip_clears_handle_keeps_identity (K : ec_consts) (typec : typec_data)
    (port_num : Int) (res1 res2 : ec_response_usb_pd_control_v1) (env1 env2 : port_env)
    (hp : (typec.ports port_num.toNat).partner = NULL)
    (hc1 : (res1.enabled &&& K.PD_CTRL_RESP_ENABLED_CONNECTED) ≠ 0)
    (hpd : (res1.enabled &&& K.PD_CTRL_RESP_ENABLED_PD_CAPABLE) ≠ 0)
    (hreg : IS_ERR_OR_NULL env1.register_partner = false)
    (hx : xfer_ok env1.discovery)
    (hc2 : (res2.enabled &&& K.PD_CTRL_RESP_ENABLED_CONNECTED) = 0) :
    typec_call.typec_register_partner (typec.ports port_num.toNat).port true
        env1.register_partner ∈
      (cros_typec_set_port_params_v1_v2 K typec port_num res1 env1).log ∧
    ((cros_typec_set_port_params_v1_v2 K typec port_num res1 env1).typec.ports
      port_num.toNat).partner = env1.register_partner ∧
    ((cros_typec_set_port_params_v1_v2 K
        (cros_typec_set_port_params_v1_v2 K typec port_num res1 env1).typec port_num res2
        env2).typec.ports port_num.toNat).partner = NULL ∧
    ((cros_typec_set_port_params_v1_v2 K
        (cros_typec_set_port_params_v1_v2 K typec port_num res1 env1).typec port_num res2
        env2).typec.ports port_num.toNat).p_identity =
      { id_header := env1.discovery.data.vid
        cert_stat := (typec.ports port_num.toNat).p_identity.cert_stat
        product := (env1.discovery.data.pid <<< 16) % 2 ^ 32 } := by
  obtain ⟨-, hlog, hpartner, hid⟩ := add_partner_attached K typec port_num
    (decide ((res1.enabled &&& K.PD_CTRL_RESP_ENABLED_PD_CAPABLE) ≠ 0)) env1 hreg hx
  obtain ⟨-, htypec, hlog2⟩ := set_port_params_attach K typec port_num res1 env1 hc1 hp
  refine ⟨?_, ?_, ?_, ?_⟩
  · rw [hlog2, hlog]
    simp [hpd]
  · rw [htypec, hpartner]
  · rw [set_port_params_partner, if_pos hc2]
  · rw [set_port_params_identity_of_not_connected K _ port_num res2 env2 hc2, htypec, hid]

/-- C5 (witness): the round trip on the sample port. -/
theorem round_trip_clears_handle_keeps_identity_witness :
    typec_call.typec_register_partner (sample_typec.ports (0 : Int).toNat).port true
        sample_env.register_partner ∈
      (cros_typec_set_port_params_v1_v2 cros_ec_consts sample_typec 0 ⟨2 ||| 4, 3, 1, []⟩
        sample_env).log ∧
    ((cros_typec_set_port_params_v1_v2 cros_ec_consts sample_typec 0 ⟨2 ||| 4, 3, 1, []⟩
      sample_env).typec.ports (0 : Int).toNat).partner = sample_env.register_partner ∧
    ((cros_typec_set_port_params_v1_v2 cros_ec_consts
        (cros_typec_set_port_params_v1_v2 cros_ec_consts sample_typec 0 ⟨2 ||| 4, 3, 1, []⟩
          sample_env).typec 0 ⟨0, 0, 0, []⟩
        sample_env).typec.ports (0 : Int).toNat).partner = NULL ∧
    ((cros_typec_set_port_params_v1_v2 cros_ec_consts
        (cros_typec_set_port_params_v1_v2 cros_ec_consts sample_typec 0 ⟨2 ||| 4, 3, 1, []⟩
          sample_env).typec 0 ⟨0, 0, 0, []⟩
        sample_env).typec.ports (0 : Int).toNat).p_identity =
      { id_header := sample_env.discovery.data.vid
        cert_stat := (sample_typec.ports (0 : Int).toNat).p_identity.cert_stat
        product := (sample_env.discovery.data.pid <<< 16) % 2 ^ 32 } :=
  round_trip_clears_handle_keeps_identity cros_ec_consts sample_typec 0 ⟨2 ||| 4, 3, 1, []⟩
    ⟨0, 0, 0, []⟩ sample_env sample_env (by decide) (by decide) (by decide) (by decide)
    (by decide) (by decide)

theorem and_two_pow_ne_zero_iff (x i : Nat) : (x &&& 2 ^ i) ≠ 0 ↔ x.testBit i = true := by
  constructor
  · intro h
    obtain ⟨j, hj⟩ := Nat.ne_zero_implies_bit_true h
    rw [Nat.testBit_and, Nat.testBit_two_pow] at hj
    simp only [Bool.and_eq_true, decide_eq_true_eq] at hj
    rw [hj.2]
    exact hj.1
  · intro h h0
    have : (x &&& 2 ^ i).testBit i = true := by
      rw [Nat.testBit_and, Nat.testBit_two_pow_self, h]
      rfl
    rw [h0] at this
    simp at this

theorem ver_mask_bit_one (m : Nat) : ((m % 256) &&& EC_VER_MASK 1) ≠ 0 ↔ m.testBit 1 = true := by
  unfold EC_VER_MASK
  rw [and_two_pow_ne_zero_iff, show (256 : Nat) = 2 ^ 8 from rfl, Nat.testBit_mod_two_pow]
  simp

theorem query_pd_port_count_of_ok (K : ec_consts) (typec : typec_data)
    (x : ec_xfer ec_response_usb_pd_ports) (uninit : ec_response_usb_pd_ports)
    (hx : xfer_ok x) :
    cros_typec_query_pd_port_count K typec x uninit =
      ⟨0, { typec with num_ports := x.data.num_ports },
        [typec_call.ec_command 0 K.EC_CMD_USB_PD_PORTS ec_request.no_payload]⟩ := by
  have hr : ¬ (x.ret < 0) := by have := hx.2; omega
  simp [cros_typec_query_pd_port_count, ec_command_of_ok _ _ _ _ _ _ hx, hr]

theorem get_cmd_version_newer (K : ec_consts) (cmd : Int) (version_mask : Nat)
    (env : version_env) (h1 : xfer_ok env.query_v1) :
    cros_typec_get_cmd_version K cmd version_mask env =
      (0, env.query_v1.data.version_mask % 256,
        [typec_call.ec_command 1 K.EC_CMD_GET_CMD_VERSIONS
          (ec_request.get_cmd_versions_v1 (cmd % 65536))]) := by
  have hr : ¬ (env.query_v1.ret < 0) := by have := h1.2; omega
  simp [cros_typec_get_cmd_version, ec_command_of_ok _ _ _ _ _ _ h1, hr]

theorem get_cmd_version_legacy (K : ec_consts) (cmd : Int) (version_mask : Nat)
    (env : version_env) (h1 : ¬ xfer_ok env.query_v1) (h0 : xfer_ok env.query_v0) :
    cros_typec_get_cmd_version K cmd version_mask env =
      (0, env.query_v0.data.version_mask % 256,
        (if env.query_v1.msg_alloc then
          [typec_call.ec_command 1 K.EC_CMD_GET_CMD_VERSIONS
            (ec_request.get_cmd_versions_v1 (cmd % 65536))] else []) ++
        [typec_call.ec_command 0 K.EC_CMD_GET_CMD_VERSIONS
          (ec_request.get_cmd_versions (cmd % 256))]) := by
  obtain ⟨a, -, c⟩ := ec_command_of_fail 1 K.EC_CMD_GET_CMD_VERSIONS
    (ec_request.get_cmd_versions_v1 (cmd % 65536)) env.query_v1 env.uninit_res 4 h1
  have hr : ¬ (env.query_v0.ret < 0) := by have := h0.2; omega
  simp only [cros_typec_get_cmd_version, a, if_true, c]
  simp [ec_command_of_ok _ _ _ _ _ _ h0, hr]

theorem get_cmd_version_fails (K : ec_consts) (cmd : Int) (version_mask : Nat)
    (env : version_env) (h1 : ¬ xfer_ok env.query_v1) (h0 : ¬ xfer_ok env.query_v0) :
    (cros_typec_get_cmd_version K cmd version_mask env).1 < 0 ∧
    (cros_typec_get_cmd_version K cmd version_mask env).2.2 =
        (if env.query_v1.msg_alloc then
          [typec_call.ec_command 1 K.EC_CMD_GET_CMD_VERSIONS
            (ec_request.get_cmd_versions_v1 (cmd % 65536))] else []) ++
        (if env.query_v0.msg_alloc then
          [typec_call.ec_command 0 K.EC_CMD_GET_CMD_VERSIONS
            (ec_request.get_cmd_versions (cmd % 256))] else []) := by
  obtain ⟨a, -, c⟩ := ec_command_of_fail 1 K.EC_CMD_GET_CMD_VERSIONS
    (ec_request.get_cmd_versions_v1 (cmd % 65536)) env.query_v1 env.uninit_res 4 h1
  obtain ⟨a0, -, c0⟩ := ec_command_of_fail 0 K.EC_CMD_GET_CMD_VERSIONS
    (ec_request.get_cmd_versions (cmd % 256)) env.query_v0
    (cros_typec_ec_command 1 K.EC_CMD_GET_CMD_VERSIONS
      (ec_request.get_cmd_versions_v1 (cmd % 65536)) env.query_v1 env.uninit_res 4).2.1 4 h0
  simp only [cros_typec_get_cmd_version, a, if_true, a0, c, c0]
  exact ⟨trivial, trivial⟩

/-- C6: at startup, after a valid port count, `cros_typec_probe` asks for the
versions of `EC_CMD_USB_PD_CONTROL` with the newer request encoding first and
uses the legacy encoding only when that exchange fails. When both exchanges
fail the probe returns a negative error and `typec->port_update` is still
unset. Otherwise, with `m` the version mask of the exchange that succeeded,
`cros_typec_port_update_v1` is selected iff bit 1 of `m` is set and
`cros_typec_port_update_v0` is selected otherwise, whatever the other bits of
`m` are (bit 2 never matters). -/
theorem probe_selects_update_by_version_mask (K : ec_consts) (typec : typec_data)
    (env : probe_env)
    (hzero : typec.port_update = none)
    (hcount : xfer_ok env.port_count)
    (hmax : env.port_count.data.num_ports ≤ K.EC_USB_PD_MAX_PORTS) :
    (xfer_ok env.versions.query_v1 →
      (cros_typec_probe K typec env).error = none ∧
      (cros_typec_probe K typec env).selected =
        some (if env.versions.query_v1.data.version_mask.testBit 1 then
          port_update_fn.cros_typec_port_update_v1
          else port_update_fn.cros_typec_port_update_v0) ∧
      (cros_typec_probe K typec env).log =
        [typec_call.ec_command 0 K.EC_CMD_USB_PD_PORTS ec_request.no_payload,
         typec_call.ec_command 1 K.EC_CMD_GET_CMD_VERSIONS
           (ec_request.get_cmd_versions_v1 ((K.EC_CMD_USB_PD_CONTROL : Int) % 65536))]) ∧
    (¬ xfer_ok env.versions.query_v1 → xfer_ok env.versions.query_v0 →
      (cros_typec_probe K typec env).error = none ∧
      (cros_typec_probe K typec env).selected =
        some (if env.versions.query_v0.data.version_mask.testBit 1 then
          port_update_fn.cros_typec_port_update_v1
          else port_update_fn.cros_typec_port_update_v0) ∧
      (cros_typec_probe K typec env).log =
        [typec_call.ec_command 0 K.EC_CMD_USB_PD_PORTS ec_request.no_payload] ++
        (if env.versions.query_v1.msg_alloc then
          [typec_call.ec_command 1 K.EC_CMD_GET_CMD_VERSIONS
            (ec_request.get_cmd_versions_v1 ((K.EC_CMD_USB_PD_CONTROL : Int) % 65536))]
          else []) ++
        [typec_call.ec_command 0 K.EC_CMD_GET_CMD_VERSIONS
          (ec_request.get_cmd_versions ((K.EC_CMD_USB_PD_CONTROL : Int) % 256))]) ∧
    (¬ xfer_ok env.versions.query_v1 → ¬ xfer_ok env.versions.query_v0 →
      (∃ ret, (cros_typec_probe K typec env).error = some ret ∧ ret < 0) ∧
      (cros_typec_probe K typec env).selected = none) := by
  have hc := query_pd_port_count_of_ok K typec env.port_count env.uninit_ports hcount
  have hm : ¬ (K.EC_USB_PD_MAX_PORTS < env.port_count.data.num_ports) := by omega
  refine ⟨?_, ?_, ?_⟩
  · intro h1
    have hv := get_cmd_version_newer K (K.EC_CMD_USB_PD_CONTROL : Int) env.uninit_ver_mask
      env.versions h1
    unfold cros_typec_probe
    simp only [hc, hv, hm, if_false, lt_self_iff_false]
    by_cases hb : env.versions.query_v1.data.version_mask.testBit 1 = true
    · rw [if_pos ((ver_mask_bit_one _).2 hb)]
      simp [probe_result.error, probe_result.selected, probe_result.log, hb]
    · rw [if_neg (fun h => hb ((ver_mask_bit_one _).1 h))]
      simp [probe_result.error, probe_result.selected, probe_result.log, hb]
  · intro h1 h0
    have hv := get_cmd_version_legacy K (K.EC_CMD_USB_PD_CONTROL : Int) env.uninit_ver_mask
      env.versions h1 h0
    unfold cros_typec_probe
    simp only [hc, hv, hm, if_false, lt_self_iff_false]
    by_cases hb : env.versions.query_v0.data.version_mask.testBit 1 = true
    · rw [if_pos ((ver_mask_bit_one _).2 hb)]
      simp [probe_result.error, probe_result.selected, probe_result.log, hb]
    · rw [if_neg (fun h => hb ((ver_mask_bit_one _).1 h))]
      simp [probe_result.error, probe_result.selected, probe_result.log, hb]
  · intro h1 h0
    obtain ⟨hv, -⟩ := get_cmd_version_fails K (K.EC_CMD_USB_PD_CONTROL : Int)
      env.uninit_ver_mask env.versions h1 h0
    unfold cros_typec_probe
    simp only [hc, hm, if_false, lt_self_iff_false, hv, if_true]
    exact ⟨⟨_, rfl, hv⟩, hzero⟩

/-- C6 (witness): the EC reports two ports and the version mask `0b10`; the
probe goes on with `cros_typec_port_update_v1` selected, and with the mask
`0b101` (bits 0 and 2) it goes on with `cros_typec_port_update_v0`. -/
theorem probe_selects_update_by_version_mask_witness :
    (cros_typec_probe cros_ec_consts zeroed_typec (sample_probe_env 0b10)).error = none ∧
    (cros_typec_probe cros_ec_consts zeroed_typec (sample_probe_env 0b10)).selected =
      some port_update_fn.cros_typec_port_update_v1 ∧
    (cros_typec_probe cros_ec_consts zeroed_typec (sample_probe_env 0b101)).selected =
      some port_update_fn.cros_typec_port_update_v0 :=
  ⟨((probe_selects_update_by_version_mask cros_ec_consts zeroed_typec (sample_probe_env 0b10)
      rfl (by decide) (by decide)).1 (by decide)).1,
   ((probe_selects_update_by_version_mask cros_ec_consts zeroed_typec (sample_probe_env 0b10)
      rfl (by decide) (by decide)).1 (by decide)).2.1,
   ((probe_selects_update_by_version_mask cros_ec_consts zeroed_typec (sample_probe_env 0b101)
      rfl (by decide) (by decide)).1 (by decide)).2.1⟩

theorem set_port_params_frame (K : ec_consts) (typec : typec_data) (port_num : Int)
    (res : ec_response_usb_pd_control_v1) (env : port_env) :
    (cros_typec_set_port_params_v1_v2 K typec port_num res env).typec.num_ports =
      typec.num_ports ∧
    (cros_typec_set_port_params_v1_v2 K typec port_num res env).typec.port_update =
      typec.port_update := by
  by_cases hc : (res.enabled &&& K.PD_CTRL_RESP_ENABLED_CONNECTED) = 0
  · by_cases hp : (typec.ports port_num.toNat).partner = NULL
    · rw [set_port_params_keep K typec port_num res env (Or.inr ⟨hc, hp⟩)]
      exact ⟨rfl, rfl⟩
    · rw [set_port_params_detach K typec port_num res env hc hp]
      exact ⟨rfl, rfl⟩
  · by_cases hp : (typec.ports port_num.toNat).partner = NULL
    · rw [(set_port_params_attach K typec port_num res env hc hp).2.1]
      exact ⟨(add_partner_frame K typec port_num _ env).1,
        (add_partner_frame K typec port_num _ env).2.1⟩
    · rw [set_port_params_keep K typec port_num res env (Or.inl ⟨hc, hp⟩)]
      exact ⟨rfl, rfl⟩

theorem call_port_update_frame (f : port_update_fn) (K : ec_consts) (typec : typec_data)
    (port_num : Int) (env : port_env) :
    (call_port_update f K typec port_num env).typec.num_ports = typec.num_ports ∧
    (call_port_update f K typec port_num env).typec.port_update = typec.port_update := by
  cases f
  · show (cros_typec_port_update_v0 K typec port_num env).typec.num_ports = _ ∧
      (cros_typec_port_update_v0 K typec port_num env).typec.port_update = _
    by_cases h0 : fetch_ok typec port_num env.control_v0
    · rw [port_update_v0_of_ok K typec port_num env h0]
      exact ⟨rfl, rfl⟩
    · rw [(port_update_v0_of_fail K typec port_num env h0).2.1]
      exact ⟨rfl, rfl⟩
  · show (cros_typec_port_update_v1 K typec port_num env).typec.num_ports = _ ∧
      (cros_typec_port_update_v1 K typec port_num env).typec.port_update = _
    by_cases h1 : fetch_ok typec port_num env.control_v1
    · rw [port_update_v1_of_ok K typec port_num env h1]
      exact set_port_params_frame K typec port_num _ env
    · rw [(port_update_v1_of_fail K typec port_num env h1).2.1]
      exact ⟨rfl, rfl⟩

theorem control_calls_control_port {α : Type} (K : ec_consts) (cmd_ver : Nat)
    (typec : typec_data) (port_num : Int) (x : ec_xfer α) :
    (control_calls K cmd_ver typec port_num x).filterMap typec_call.control_port =
      if 0 ≤ port_num ∧ port_num < (typec.num_ports : Int) ∧ x.msg_alloc = true then
        [port_num % 256] else [] := by
  unfold control_calls
  split <;> simp [typec_call.control_port]

theorem add_partner_control_port (K : ec_consts) (typec : typec_data) (port_num : Int)
    (b : Bool) (env : port_env) :
    (cros_typec_add_partner K typec port_num b env).log.filterMap typec_call.control_port
      = [] := by
  have hd : (discovery_calls K port_num env).filterMap typec_call.control_port = [] := by
    unfold discovery_calls
    split <;> simp [typec_call.control_port]
  by_cases hreg : IS_ERR_OR_NULL env.register_partner = true
  · rw [(add_partner_register_failed K typec port_num _ env hreg).2.1]
    simp [typec_call.control_port]
  · have hreg2 : IS_ERR_OR_NULL env.register_partner = false := by simpa using hreg
    by_cases hx : xfer_ok env.discovery
    · rw [(add_partner_attached K typec port_num _ env hreg2 hx).2.1]
      simp only [List.filterMap_append, hd]
      simp [typec_call.control_port]
    · rw [(add_partner_discovery_failed K typec port_num _ env hreg2 hx).2.1]
      simp only [List.filterMap_append, hd]
      simp [typec_call.control_port]

theorem set_port_params_control_port (K : ec_consts) (typec : typec_data) (port_num : Int)
    (res : ec_response_usb_pd_control_v1) (env : port_env) :
    (cros_typec_set_port_params_v1_v2 K typec port_num res env).log.filterMap
      typec_call.control_port = [] := by
  have hpub : (published_v1 K (typec.ports port_num.toNat).port res).filterMap
      typec_call.control_port = [] := by
    simp [published_v1, typec_call.control_port]
  by_cases hc : (res.enabled &&& K.PD_CTRL_RESP_ENABLED_CONNECTED) = 0
  · by_cases hp : (typec.ports port_num.toNat).partner = NULL
    · rw [set_port_params_keep K typec port_num res env (Or.inr ⟨hc, hp⟩)]
      exact hpub
    · rw [set_port_params_detach K typec port_num res env hc hp]
      simp only [List.filterMap_append, hpub]
      simp [typec_call.control_port]
  · by_cases hp : (typec.ports port_num.toNat).partner = NULL
    · rw [(set_port_params_attach K typec port_num res env hc hp).2.2, List.filterMap_append,
        hpub, add_partner_control_port]
      rfl
    · rw [set_port_params_keep K typec port_num res env (Or.inl ⟨hc, hp⟩)]
      exact hpub

theorem call_port_update_control_port (f : port_update_fn) (K : ec_consts)
    (typec : typec_data) (i : Nat) (env : port_env) (hi : i < typec.num_ports) :
    (call_port_update f K typec (i : Int) env).log.filterMap typec_call.control_port =
      if control_msg_alloc f env = true then [(i : Int) % 256] else [] := by
  have h0 : (0 : Int) ≤ (i : Int) := Int.ofNat_nonneg i
  have h1 : (i : Int) < (typec.num_ports : Int) := Int.ofNat_lt.2 hi
  cases f
  · show (cros_typec_port_update_v0 K typec (i : Int) env).log.filterMap _ = _
    by_cases hf : fetch_ok typec (i : Int) env.control_v0
    · rw [port_update_v0_of_ok K typec _ env hf]
      simp only [List.filterMap_append, control_calls_control_port, h0, h1, true_and]
      simp [typec_call.control_port, control_msg_alloc]
    · rw [(port_update_v0_of_fail K typec _ env hf).2.2, control_calls_control_port]
      simp [h1, control_msg_alloc]
  · show (cros_typec_port_update_v1 K typec (i : Int) env).log.filterMap _ = _
    by_cases hf : fetch_ok typec (i : Int) env.control_v1
    · rw [port_update_v1_of_ok K typec _ env hf]
      simp only [List.filterMap_append, control_calls_control_port, h0, h1, true_and,
        set_port_params_control_port]
      simp [control_msg_alloc]
    · rw [(port_update_v1_of_fail K typec _ env hf).2.2, control_calls_control_port]
      simp [h1, control_msg_alloc]

theorem ec_event_loop_eq_sweep (K : ec_consts) (f : port_update_fn) (env : Nat → port_env) :
    ∀ (fuel : Nat) (typec : typec_data) (i : Nat),
      typec.port_update = some f → typec.num_ports - i ≤ fuel →
      cros_typec_ec_event_loop K fuel typec i env =
        some ((sweep_in_order K f env (List.range' i (typec.num_ports - i)) typec).1,
          (sweep_in_order K f env (List.range' i (typec.num_ports - i)) typec).2.1) := by
  intro fuel
  induction fuel with
  | zero =>
    intro typec i _ hfuel
    have hn : typec.num_ports - i = 0 := by omega
    have hi : ¬ i < typec.num_ports := by omega
    simp [cros_typec_ec_event_loop, hi, hn, sweep_in_order]
  | succ fuel ih =>
    intro typec i hsel hfuel
    by_cases hi : i < typec.num_ports
    · obtain ⟨hnum, hupd⟩ := call_port_update_frame f K typec (i : Int) (env i)
      have hlen : typec.num_ports - i = (typec.num_ports - (i + 1)) + 1 := by omega
      have ih2 := ih (call_port_update f K typec (i : Int) (env i)).typec (i + 1)
        (by rw [hupd]; exact hsel) (by rw [hnum]; omega)
      rw [hnum] at ih2
      rw [hlen, List.range'_succ]
      simp only [cros_typec_ec_event_loop, hi, if_true, hsel, ih2, sweep_in_order,
        Option.map_some']
    · have hn : typec.num_ports - i = 0 := by omega
      simp [cros_typec_ec_event_loop, hi, hn, sweep_in_order]

theorem sweep_in_order_frame (K : ec_consts) (f : port_update_fn) (env : Nat → port_env) :
    ∀ (l : List Nat) (typec : typec_data),
      (sweep_in_order K f env l typec).1.num_ports = typec.num_ports ∧
      (sweep_in_order K f env l typec).2.2.length = l.length := by
  intro l
  induction l with
  | nil => intro typec; simp [sweep_in_order]
  | cons i rest ih =>
    intro typec
    obtain ⟨h1, h2⟩ := ih (call_port_update f K typec (i : Int) (env i)).typec
    simp only [sweep_in_order, List.length_cons]
    rw [h1, h2, (call_port_update_frame f K typec (i : Int) (env i)).1]
    exact ⟨rfl, rfl⟩

theorem sweep_in_order_control_port (K : ec_consts) (f : port_update_fn)
    (env : Nat → port_env) :
    ∀ (l : List Nat) (typec : typec_data), (∀ i ∈ l, i < typec.num_ports) →
      (sweep_in_order K f env l typec).2.1.filterMap typec_call.control_port =
        l.filterMap (fun i =>
          if control_msg_alloc f (env i) = true then some ((i : Int) % 256) else none) := by
  intro l
  induction l with
  | nil => intro typec _; simp [sweep_in_order]
  | cons i rest ih =>
    intro typec hl
    have hi : i < typec.num_ports := hl i (List.mem_cons_self i rest)
    have ih2 := ih (call_port_update f K typec (i : Int) (env i)).typec (by
      intro j hj
      rw [(call_port_update_frame f K typec (i : Int) (env i)).1]
      exact hl j (List.mem_cons_of_mem i hj))
    simp only [sweep_in_order, List.filterMap_append, ih2,
      call_port_update_control_port f K typec i (env i) hi, List.filterMap_cons]
    by_cases ha : control_msg_alloc f (env i) = true
    · simp [ha]
    · simp [ha]

/-- C7: in every driver state with an update function selected and for every
pattern of per-port failures, one call of `cros_typec_ec_event` returns
`NOTIFY_DONE` and does exactly what running the selected update once for each
port index 0, 1, ..., `num_ports - 1` in ascending order does, each update
starting from the state the previous one left and whatever the earlier updates
returned: same final state, same calls, one return value per port. In
particular the control command is sent once for every port, in ascending
order of the port index, save for the ports whose message could not be
allocated. -/
theorem ec_event_updates_every_port_in_order (K : ec_consts) (typec : typec_data)
    (f : port_update_fn) (env : Nat → port_env) (hsel : typec.port_update = some f) :
    ∃ r, cros_typec_ec_event K typec env = some r ∧
      r.ret = NOTIFY_DONE ∧
      r.typec = (sweep_in_order K f env (List.range typec.num_ports) typec).1 ∧
      r.log = (sweep_in_order K f env (List.range typec.num_ports) typec).2.1 ∧
      (sweep_in_order K f env (List.range typec.num_ports) typec).2.2.length =
        typec.num_ports ∧
      r.log.filterMap typec_call.control_port =
        (List.range typec.num_ports).filterMap (fun i =>
          if control_msg_alloc f (env i) = true then some ((i : Int) % 256) else none) := by
  have hloop := ec_event_loop_eq_sweep K f env typec.num_ports typec 0 hsel (by omega)
  rw [Nat.sub_zero, ← List.range_eq_range'] at hloop
  refine ⟨⟨NOTIFY_DONE, (sweep_in_order K f env (List.range typec.num_ports) typec).1,
    (sweep_in_order K f env (List.range typec.num_ports) typec).2.1⟩, ?_, rfl, rfl, rfl, ?_, ?_⟩
  · simp [cros_typec_ec_event, hloop]
  · rw [(sweep_in_order_frame K f env _ typec).2, List.length_range]
  · exact sweep_in_order_control_port K f env _ typec (fun i hi => List.mem_range.1 hi)

/-- C7 (witness): a sweep over the two sample ports in which every partner
registration fails still sends the control command for port 0 and then for
port 1. -/
theorem ec_event_updates_every_port_in_order_witness :
    ∃ r, cros_typec_ec_event cros_ec_consts sample_typec (fun _ => sample_env_register_fails)
        = some r ∧
      r.ret = NOTIFY_DONE ∧
      r.log.filterMap typec_call.control_port = [0, 1] := by
  obtain ⟨r, h1, h2, -, -, -, h6⟩ := ec_event_updates_every_port_in_order cros_ec_consts
    sample_typec port_update_fn.cros_typec_port_update_v1 (fun _ => sample_env_register_fails) rfl
  exact ⟨r, h1, h2, by rw [h6]; decide⟩

theorem live_after_append (l1 l2 : List typec_call) :
    ∀ live : List Int, live_after live (l1 ++ l2) = live_after (live_after live l1) l2 := by
  induction l1 with
  | nil => intro live; rfl
  | cons c rest ih =>
    intro live
    cases c <;> simp [live_after, ih]

theorem disciplined_append (l1 l2 : List typec_call) :
    ∀ live : List Int, disciplined live (l1 ++ l2) =
      (disciplined live l1 && disciplined (live_after live l1) l2) := by
  induction l1 with
  | nil => intro live; simp [disciplined, live_after]
  | cons c rest ih =>
    intro live
    cases c <;> simp [disciplined, live_after, ih, Bool.and_assoc]

theorem neutral_of_no_lifecycle (l : List typec_call)
    (h : l.filter typec_call.is_partner_lifecycle = []) :
    ∀ live : List Int, live_after live l = live ∧ disciplined live l = true := by
  induction l with
  | nil => intro live; exact ⟨rfl, rfl⟩
  | cons c rest ih =>
    intro live
    have hc : c.is_partner_lifecycle = false := by
      cases hb : c.is_partner_lifecycle
      · rfl
      · simp [List.filter_cons, hb] at h
    have hrest : rest.filter typec_call.is_partner_lifecycle = [] := by
      simpa [List.filter_cons, hc] using h
    obtain ⟨a, b⟩ := ih hrest live
    cases c <;> simp [typec_call.is_partner_lifecycle] at hc <;>
      simp [live_after, disciplined, a, b]

theorem held_null : held NULL = [] := by simp [held]

theorem held_of_ne_null (p : Int) (h : p ≠ NULL) : held p = [p] := by simp [held, h]

theorem add_partner_lifecycle (K : ec_consts) (typec : typec_data) (port_num : Int)
    (b : Bool) (env : port_env) :
    disciplined [] (cros_typec_add_partner K typec port_num b env).log = true ∧
    live_after [] (cros_typec_add_partner K typec port_num b env).log =
      held ((cros_typec_add_partner K typec port_num b env).typec.ports port_num.toNat).partner
    := by
  obtain ⟨hd1, hd2⟩ := neutral_of_no_lifecycle _ (discovery_calls_not_lifecycle K port_num env)
    [env.register_partner]
  by_cases hreg : IS_ERR_OR_NULL env.register_partner = true
  · obtain ⟨-, hlog, hpartner, -⟩ := add_partner_register_failed K typec port_num b env hreg
    rw [hlog, hpartner, held_null]
    simp [disciplined, live_after, hreg]
  · have hreg2 : IS_ERR_OR_NULL env.register_partner = false := by simpa using hreg
    by_cases hx : xfer_ok env.discovery
    · obtain ⟨-, hlog, hpartner, -⟩ := add_partner_attached K typec port_num b env hreg2 hx
      rw [hlog, hpartner, held_of_ne_null _ (not_null_of_not_err_or_null _ hreg2)]
      simp [disciplined, live_after, hreg2, disciplined_append, live_after_append, hd1, hd2]
    · obtain ⟨-, hlog, hpartner, -⟩ := add_partner_discovery_failed K typec port_num b env
        hreg2 hx
      rw [hlog, hpartner, held_null]
      simp [disciplined, live_after, hreg2, disciplined_append, live_after_append, hd1, hd2]

theorem set_port_params_lifecycle (K : ec_consts) (typec : typec_data) (port_num : Int)
    (res : ec_response_usb_pd_control_v1) (env : port_env) :
    disciplined (held (typec.ports port_num.toNat).partner)
      (cros_typec_set_port_params_v1_v2 K typec port_num res env).log = true ∧
    live_after (held (typec.ports port_num.toNat).partner)
      (cros_typec_set_port_params_v1_v2 K typec port_num res env).log =
      held ((cros_typec_set_port_params_v1_v2 K typec port_num res env).typec.ports
        port_num.toNat).partner := by
  have hpub := fun live => neutral_of_no_lifecycle _
    (published_v1_not_lifecycle K (typec.ports port_num.toNat).port res) live
  by_cases hc : (res.enabled &&& K.PD_CTRL_RESP_ENABLED_CONNECTED) = 0
  · by_cases hp : (typec.ports port_num.toNat).partner = NULL
    · rw [set_port_params_keep K typec port_num res env (Or.inr ⟨hc, hp⟩)]
      exact ⟨(hpub _).2, (hpub _).1⟩
    · rw [set_port_params_detach K typec port_num res env hc hp]
      simp only [disciplined_append, live_after_append, (hpub _).1, (hpub _).2,
        modify_port_ports_same, held_null, held_of_ne_null _ hp]
      simp [disciplined, live_after]
  · by_cases hp : (typec.ports port_num.toNat).partner = NULL
    · obtain ⟨-, htypec, hlog⟩ := set_port_params_attach K typec port_num res env hc hp
      obtain ⟨ha1, ha2⟩ := add_partner_lifecycle K typec port_num
        (decide ((res.enabled &&& K.PD_CTRL_RESP_ENABLED_PD_CAPABLE) ≠ 0)) env
      rw [htypec, hlog, hp, held_null]
      simp only [disciplined_append, live_after_append, (hpub _).1, (hpub _).2, ha1, ha2,
        Bool.and_self, and_self]
    · rw [set_port_params_keep K typec port_num res env (Or.inl ⟨hc, hp⟩)]
      exact ⟨(hpub _).2, (hpub _).1⟩

theorem port_update_v1_lifecycle (K : ec_consts) (typec : typec_data) (port_num : Int)
    (env : port_env) :
    disciplined (held (typec.ports port_num.toNat).partner)
      (cros_typec_port_update_v1 K typec port_num env).log = true ∧
    live_after (held (typec.ports port_num.toNat).partner)
      (cros_typec_port_update_v1 K typec port_num env).log =
      held ((cros_typec_port_update_v1 K typec port_num env).typec.ports
        port_num.toNat).partner := by
  have hctl := fun live => neutral_of_no_lifecycle _
    (control_calls_not_lifecycle K 1 typec port_num env.control_v1) live
  by_cases hf : fetch_ok typec port_num env.control_v1
  · rw [port_update_v1_of_ok K typec port_num env hf]
    obtain ⟨h1, h2⟩ := set_port_params_lifecycle K typec port_num env.control_v1.data env
    simp only [disciplined_append, live_after_append, (hctl _).1, (hctl _).2, h1, h2,
      Bool.and_self, and_self]
  · obtain ⟨-, htypec, hlog⟩ := port_update_v1_of_fail K typec port_num env hf
    rw [htypec, hlog]
    exact ⟨(hctl _).2, (hctl _).1⟩

theorem run_updates_v1_lifecycle (K : ec_consts) (port_num : Int) :
    ∀ (envs : List port_env) (typec : typec_data),
      disciplined (held (typec.ports port_num.toNat).partner)
        (run_updates_v1 K port_num typec envs).2 = true ∧
      live_after (held (typec.ports port_num.toNat).partner)
        (run_updates_v1 K port_num typec envs).2 =
        held ((run_updates_v1 K port_num typec envs).1.ports port_num.toNat).partner := by
  intro envs
  induction envs with
  | nil => intro typec; exact ⟨rfl, rfl⟩
  | cons env rest ih =>
    intro typec
    obtain ⟨h1, h2⟩ := port_update_v1_lifecycle K typec port_num env
    obtain ⟨h3, h4⟩ := ih (cros_typec_port_update_v1 K typec port_num env).typec
    simp only [run_updates_v1, disciplined_append, live_after_append, h1, h2, h3, h4,
      Bool.and_self, and_self]

theorem live_at_most_one_of_disciplined (l : List typec_call) :
    ∀ (live : List Int), live.length ≤ 1 → disciplined live l = true →
      ∀ k, (live_after live (l.take k)).length ≤ 1 := by
  induction l with
  | nil => intro live hl _ k; simpa [live_after] using hl
  | cons c rest ih =>
    intro live hl hd k
    cases k with
    | zero => simpa [live_after] using hl
    | succ k =>
      cases c with
      | typec_register_partner p b ret =>
        simp only [disciplined, Bool.and_eq_true, beq_iff_eq] at hd
        simp only [List.take_succ_cons, live_after]
        refine ih _ ?_ hd.2 k
        rw [hd.1]
        split <;> simp
      | typec_unregister_partner h =>
        simp only [disciplined, Bool.and_eq_true, beq_iff_eq] at hd
        simp only [List.take_succ_cons, live_after]
        refine ih _ ?_ hd.2 k
        rw [hd.1]
        simp
      | ec_command v c o => exact ih live hl (by simpa [disciplined] using hd) k
      | typec_set_orientation p o => exact ih live hl (by simpa [disciplined] using hd) k
      | typec_set_data_role p o => exact ih live hl (by simpa [disciplined] using hd) k
      | typec_set_pwr_role p o => exact ih live hl (by simpa [disciplined] using hd) k
      | typec_set_vconn_role p o => exact ih live hl (by simpa [disciplined] using hd) k
      | typec_partner_set_identity p o => exact ih live hl (by simpa [disciplined] using hd) k

/-- C8: for every finite sequence of schema v1 updates of one port that starts
without a partner, whatever the EC answers and whether partner registration,
discovery and identity publication succeed or fail: every
`typec_register_partner` call is made while no partner is live and every
`typec_unregister_partner` call names the one live partner; after any prefix of
the calls at most one partner is registered and not yet unregistered; and
after any number of the updates the partner handle of the port is `NULL` when
no partner is live and is otherwise exactly the live partner. -/
theorem v1_updates_hold_at_most_one_live_partner (K : ec_consts) (typec : typec_data)
    (port_num : Int) (envs : List port_env)
    (hp : (typec.ports port_num.toNat).partner = NULL) :
    disciplined [] (run_updates_v1 K port_num typec envs).2 = true ∧
    (∀ k, (live_after [] ((run_updates_v1 K port_num typec envs).2.take k)).length ≤ 1) ∧
    (∀ j, live_after [] (run_updates_v1 K port_num typec (envs.take j)).2 =
      held ((run_updates_v1 K port_num typec (envs.take j)).1.ports port_num.toNat).partner) := by
  have hrun := fun es => run_updates_v1_lifecycle K port_num es typec
  rw [hp, held_null] at hrun
  refine ⟨(hrun envs).1, ?_, fun j => (hrun (envs.take j)).2⟩
  exact live_at_most_one_of_disciplined _ [] (by simp) (hrun envs).1

/-- C8 (witness): on the sample port, an update whose discovery query fails,
an update that attaches a partner, and an update of the attached port. -/
theorem v1_updates_hold_at_most_one_live_partner_witness :
    disciplined [] (run_updates_v1 cros_ec_consts 0 sample_typec
      [sample_env_discovery_fails, sample_env, sample_env_register_fails]).2 = true ∧
    (∀ k, (live_after [] ((run_updates_v1 cros_ec_consts 0 sample_typec
      [sample_env_discovery_fails, sample_env, sample_env_register_fails]).2.take k)).length
        ≤ 1) ∧
    (∀ j, live_after [] (run_updates_v1 cros_ec_consts 0 sample_typec
        ([sample_env_discovery_fails, sample_env, sample_env_register_fails].take j)).2 =
      held ((run_updates_v1 cros_ec_consts 0 sample_typec
        ([sample_env_discovery_fails, sample_env, sample_env_register_fails].take j)).1.ports
          (0 : Int).toNat).partner) :=
  v1_updates_hold_at_most_one_live_partner cros_ec_consts sample_typec 0
    [sample_env_discovery_fails, sample_env, sample_env_register_fails] (by decide)

theorem set_port_params_port (K : ec_consts) (typec : typec_data) (port_num : Int)
    (res : ec_response_usb_pd_control_v1) (env : port_env) :
    ((cros_typec_set_port_params_v1_v2 K typec port_num res env).typec.ports
      port_num.toNat).port = (typec.ports port_num.toNat).port := by
  by_cases hc : (res.enabled &&& K.PD_CTRL_RESP_ENABLED_CONNECTED) = 0
  · by_cases hp : (typec.ports port_num.toNat).partner = NULL
    · rw [set_port_params_keep K typec port_num res env (Or.inr ⟨hc, hp⟩)]
    · rw [set_port_params_detach K typec port_num res env hc hp]
      simp
  · by_cases hp : (typec.ports port_num.toNat).partner = NULL
    · rw [(set_port_params_attach K typec port_num res env hc hp).2.1]
      exact (add_partner_frame K typec port_num _ env).2.2
    · rw [set_port_params_keep K typec port_num res env (Or.inl ⟨hc, hp⟩)]

/-- C9: for every schema v1 response and every port that holds a partner,
applying `cros_typec_set_port_params_v1_v2` with the same response a second
time makes no `typec_register_partner` and no `typec_unregister_partner` call
and leaves the partner handle as the first application left it. The second
application makes exactly four calls: it publishes the orientation (NONE when
the CONNECTED bit is clear, else NORMAL for polarity 0 and REVERSE otherwise),
the data role (HOST iff the DATA bit is set), the power role (SOURCE iff the
POWER bit is set) and the VCONN role (SOURCE iff the VCONN bit is set); these
are the four publish calls the first application made. -/
theorem set_port_params_v1_v2_idempotent_on_attached (K : ec_consts) (typec : typec_data)
    (port_num : Int) (res : ec_response_usb_pd_control_v1) (env1 env2 : port_env)
    (hatt : (typec.ports port_num.toNat).partner ≠ NULL) :
    (cros_typec_set_port_params_v1_v2 K
      (cros_typec_set_port_params_v1_v2 K typec port_num res env1).typec port_num res
      env2).log.filter typec_call.is_partner_lifecycle = [] ∧
    ((cros_typec_set_port_params_v1_v2 K
      (cros_typec_set_port_params_v1_v2 K typec port_num res env1).typec port_num res
      env2).typec.ports port_num.toNat).partner =
      ((cros_typec_set_port_params_v1_v2 K typec port_num res env1).typec.ports
        port_num.toNat).partner ∧
    (cros_typec_set_port_params_v1_v2 K
      (cros_typec_set_port_params_v1_v2 K typec port_num res env1).typec port_num res
      env2).log =
      (cros_typec_set_port_params_v1_v2 K typec port_num res env1).log.filter
        typec_call.is_publish ∧
    (cros_typec_set_port_params_v1_v2 K
      (cros_typec_set_port_params_v1_v2 K typec port_num res env1).typec port_num res
      env2).log =
      [typec_call.typec_set_orientation (typec.ports port_num.toNat).port
         (if (res.enabled &&& K.PD_CTRL_RESP_ENABLED_CONNECTED) = 0 then TYPEC_ORIENTATION_NONE
          else if res.polarity = 0 then TYPEC_ORIENTATION_NORMAL
          else TYPEC_ORIENTATION_REVERSE),
       typec_call.typec_set_data_role (typec.ports port_num.toNat).port
         (if (res.role &&& K.PD_CTRL_RESP_ROLE_DATA) ≠ 0 then TYPEC_HOST else TYPEC_DEVICE),
       typec_call.typec_set_pwr_role (typec.ports port_num.toNat).port
         (if (res.role &&& K.PD_CTRL_RESP_ROLE_POWER) ≠ 0 then TYPEC_SOURCE else TYPEC_SINK),
       typec_call.typec_set_vconn_role (typec.ports port_num.toNat).port
         (if (res.role &&& K.PD_CTRL_RESP_ROLE_VCONN) ≠ 0 then TYPEC_SOURCE
          else TYPEC_SINK)] ∧
    (cros_typec_set_port_params_v1_v2 K typec port_num res env1).log.filter
        typec_call.is_publish =
      [typec_call.typec_set_orientation (typec.ports port_num.toNat).port
         (if (res.enabled &&& K.PD_CTRL_RESP_ENABLED_CONNECTED) = 0 then TYPEC_ORIENTATION_NONE
          else if res.polarity = 0 then TYPEC_ORIENTATION_NORMAL
          else TYPEC_ORIENTATION_REVERSE),
       typec_call.typec_set_data_role (typec.ports port_num.toNat).port
         (if (res.role &&& K.PD_CTRL_RESP_ROLE_DATA) ≠ 0 then TYPEC_HOST else TYPEC_DEVICE),
       typec_call.typec_set_pwr_role (typec.ports port_num.toNat).port
         (if (res.role &&& K.PD_CTRL_RESP_ROLE_POWER) ≠ 0 then TYPEC_SOURCE else TYPEC_SINK),
       typec_call.typec_set_vconn_role (typec.ports port_num.toNat).port
         (if (res.role &&& K.PD_CTRL_RESP_ROLE_VCONN) ≠ 0 then TYPEC_SOURCE
          else TYPEC_SINK)] := by
  have hport := set_port_params_port K typec port_num res env1
  have hpartner := set_port_params_partner K typec port_num res env1
  have hkeep : cros_typec_set_port_params_v1_v2 K
      (cros_typec_set_port_params_v1_v2 K typec port_num res env1).typec port_num res env2 =
      ⟨0, (cros_typec_set_port_params_v1_v2 K typec port_num res env1).typec,
        published_v1 K (typec.ports port_num.toNat).port res⟩ := by
    rw [← hport]
    apply set_port_params_keep
    by_cases hc : (res.enabled &&& K.PD_CTRL_RESP_ENABLED_CONNECTED) = 0
    · rw [if_pos hc] at hpartner
      exact Or.inr ⟨hc, hpartner⟩
    · rw [if_neg hc, if_pos hatt] at hpartner
      exact Or.inl ⟨hc, by rw [hpartner]; exact hatt⟩
  rw [hkeep, set_port_params_publish]
  exact ⟨published_v1_not_lifecycle K _ res, rfl, rfl, rfl, rfl⟩

/-- C9 (witness): the sample port after a partner was attached, with a
response that is still connected: the second application makes the four
publish calls REVERSE, HOST, SOURCE, VCONN SINK and nothing else, and the
handle stays 1000. -/
theorem set_port_params_v1_v2_idempotent_on_attached_witness :
    ((cros_typec_port_update_v1 cros_ec_consts sample_typec 0 sample_env).typec.ports
      (0 : Int).toNat).partner ≠ NULL ∧
    (cros_typec_set_port_params_v1_v2 cros_ec_consts
      (cros_typec_set_port_params_v1_v2 cros_ec_consts
        (cros_typec_port_update_v1 cros_ec_consts sample_typec 0 sample_env).typec 0
        ⟨6, 3, 1, []⟩ sample_env).typec 0 ⟨6, 3, 1, []⟩
      sample_env).log =
      [typec_call.typec_set_orientation 500 TYPEC_ORIENTATION_REVERSE,
       typec_call.typec_set_data_role 500 TYPEC_HOST,
       typec_call.typec_set_pwr_role 500 TYPEC_SOURCE,
       typec_call.typec_set_vconn_role 500 TYPEC_SINK] ∧
    ((cros_typec_set_port_params_v1_v2 cros_ec_consts
      (cros_typec_set_port_params_v1_v2 cros_ec_consts
        (cros_typec_port_update_v1 cros_ec_consts sample_typec 0 sample_env).typec 0
        ⟨6, 3, 1, []⟩ sample_env).typec 0 ⟨6, 3, 1, []⟩
      sample_env).typec.ports (0 : Int).toNat).partner = 1000 := by
  obtain ⟨-, h2, -, h4, -⟩ := set_port_params_v1_v2_idempotent_on_attached cros_ec_consts
    (cros_typec_port_update_v1 cros_ec_consts sample_typec 0 sample_env).typec 0
    ⟨6, 3, 1, []⟩ sample_env sample_env (by decide)
  refine ⟨by decide, ?_, ?_⟩
  · rw [h4]
    decide
  · rw [h2]
    decide

/-- C10: for every schema v0 response whose fetch succeeds,
`cros_typec_port_update_v0` returns 0 and, after the control-command transfer,
makes exactly two calls: it publishes the power role (SOURCE iff `role` is not
0, else SINK) and the orientation (NONE when `enabled` is 0, NORMAL when
`enabled` is not 0 and `polarity` is 0, REVERSE when both are not 0). It
publishes no data role and no VCONN role, registers no partner, and leaves the
driver state untouched. With `enabled = 0` and `role = 0` it publishes SINK
and NONE. -/
theorem port_update_v0_publishes_power_role_and_orientation (K : ec_consts)
    (typec : typec_data) (port_num : Int) (env : port_env)
    (hfetch : fetch_ok typec port_num env.control_v0) :
    ∃ p o,
      (cros_typec_port_update_v0 K typec port_num env).log =
        [typec_call.ec_command 0 K.EC_CMD_USB_PD_CONTROL
           (ec_request.usb_pd_control (port_num % 256)),
         typec_call.typec_set_pwr_role (typec.ports port_num.toNat).port p,
         typec_call.typec_set_orientation (typec.ports port_num.toNat).port o] ∧
      (env.control_v0.data.enabled = 0 → o = TYPEC_ORIENTATION_NONE) ∧
      (env.control_v0.data.enabled ≠ 0 → env.control_v0.data.polarity = 0 →
        o = TYPEC_ORIENTATION_NORMAL) ∧
      (env.control_v0.data.enabled ≠ 0 → env.control_v0.data.polarity ≠ 0 →
        o = TYPEC_ORIENTATION_REVERSE) ∧
      (p = TYPEC_SOURCE ↔ env.control_v0.data.role ≠ 0) ∧
      (p = TYPEC_SINK ↔ env.control_v0.data.role = 0) ∧
      (∀ q r, typec_call.typec_set_data_role q r ∉
        (cros_typec_port_update_v0 K typec port_num env).log) ∧
      (∀ q r, typec_call.typec_set_vconn_role q r ∉
        (cros_typec_port_update_v0 K typec port_num env).log) ∧
      (∀ q b ret, typec_call.typec_register_partner q b ret ∉
        (cros_typec_port_update_v0 K typec port_num env).log) ∧
      (cros_typec_port_update_v0 K typec port_num env).typec = typec ∧
      (cros_typec_port_update_v0 K typec port_num env).ret = 0 ∧
      (env.control_v0.data.enabled = 0 → env.control_v0.data.role = 0 →
        p = TYPEC_SINK ∧ o = TYPEC_ORIENTATION_NONE) := by
  have hctl : control_calls K 0 typec port_num env.control_v0 =
      [typec_call.ec_command 0 K.EC_CMD_USB_PD_CONTROL
        (ec_request.usb_pd_control (port_num % 256))] := by
    simp [control_calls, hfetch.1, hfetch.2.1, hfetch.2.2.1]
  rw [port_update_v0_of_ok K typec port_num env hfetch, hctl]
  refine ⟨if env.control_v0.data.role ≠ 0 then TYPEC_SOURCE else TYPEC_SINK,
    if env.control_v0.data.enabled = 0 then TYPEC_ORIENTATION_NONE
      else if env.control_v0.data.polarity = 0 then TYPEC_ORIENTATION_NORMAL
      else TYPEC_ORIENTATION_REVERSE, rfl, ?_, ?_, ?_, ?_, ?_, ?_, ?_, ?_, rfl, rfl, ?_⟩
  · intro h; simp [h]
  · intro h h2; simp [h, h2]
  · intro h h2; simp [h, h2]
  · by_cases h : env.control_v0.data.role = 0 <;> simp [h]
  · by_cases h : env.control_v0.data.role = 0 <;> simp [h]
  · intro q r; simp
  · intro q r; simp
  · intro q b ret; simp
  · intro h h2; simp [h, h2]

/-- C10 (witness): the sample port with the schema v0 response `enabled = 0`,
`role = 0`, `polarity = 0`: the update publishes SINK and NONE. -/
theorem port_update_v0_publishes_power_role_and_orientation_witness :
    (cros_typec_port_update_v0 cros_ec_consts sample_typec 0
      { sample_env with control_v0 := ⟨true, 4, ⟨0, 0, 0, 0⟩⟩ }).log =
      [typec_call.ec_command 0 0x101 (ec_request.usb_pd_control 0),
       typec_call.typec_set_pwr_role 500 TYPEC_SINK,
       typec_call.typec_set_orientation 500 TYPEC_ORIENTATION_NONE] := by
  obtain ⟨p, o, hlog, -, -, -, -, -, -, -, -, -, -, h⟩ :=
    port_update_v0_publishes_power_role_and_orientation cros_ec_consts sample_typec 0
      { sample_env with control_v0 := ⟨true, 4, ⟨0, 0, 0, 0⟩⟩ } (by decide)
  obtain ⟨hp, ho⟩ := h rfl rfl
  rw [hlog, hp, ho]
  rfl

end CrosEcTypec
